import Mathlib

/-!
Verification development for the content-creator dashboard server.

The definitions below are a shallow embedding of the TypeScript source:

* src/server/scripts.ts          - MemStorage (in-memory store, CRUD and queries)
* src/shared/schema.ts           - entity shapes and insert shapes (zod schemas)
* src/unnamed/part_011           - automation router (create-content pipeline)
* src/server/routes/aiToolsRoutes.ts - LocalTTS (voices, download, textToAudio)
* src/server/services/zeroAI/localImageGenerator.ts - LocalImageGenerator and
  VideoGenerator

Conventions of the embedding:

* JavaScript numbers that hold timestamps are modelled as natural numbers of
  milliseconds (`Millis`); entity ids as `Nat`; scores and counts as `Int`;
  fractional results (for example generationTime in seconds) as `Rat`.
* `undefined`/missing optional fields are `Option.none`.  JavaScript
  truthiness defaults such as `x || null` and `x || "draft"` are embedded by
  the helpers `strOrNull`, `strOrDefault`, `intOrNull`, `natTruthy`, which
  also reproduce the falsiness of `""` and `0`.
* A JS `Map` is modelled as a list of rows in insertion order together with
  the id counter (`Table`).  `Map.get` is `find?` on the id, `Map.set` on an
  existing key replaces the row in place, a fresh `Map.set` appends.
* `async` functions that can reject are embedded as functions returning
  `Except String` results paired with the updated mutable state of the
  service singleton.
* The template based text generators in localLLM.ts draw on `Math.random`,
  so their output strings are nondeterministic.  The pipeline consumes those
  strings opaquely; they enter the embedding as oracle fields
  (`scriptText`, `postText`) of the environment and the theorems quantify
  over them.
-/

namespace ContentApp

/-- Milliseconds since the epoch, the value of `Date.now()` / `Date.getTime()`. -/
abbrev Millis := Nat

/-- Embeds the JavaScript pattern `s || null` for an optional string field:
`undefined`, `null` and `""` all collapse to `null`. -/
def strOrNull (o : Option String) : Option String :=
  match o with
  | some s => if s.isEmpty then none else some s
  | none => none

/-- Embeds the JavaScript pattern `s || d` for an optional string with default:
`undefined`, `null` and `""` all fall back to the default. -/
def strOrDefault (o : Option String) (d : String) : String :=
  match o with
  | some s => if s.isEmpty then d else s
  | none => d

/-- Embeds the JavaScript pattern `n || null` for an optional integer field:
`undefined`, `null` and `0` all collapse to `null`. -/
def intOrNull (o : Option Int) : Option Int :=
  match o with
  | some n => if n = 0 then none else some n
  | none => none

/-- Truthiness of an optional id-valued number (`if (request.topicId)`):
missing and `0` are falsy. -/
def natTruthy (o : Option Nat) : Bool :=
  match o with
  | some n => n != 0
  | none => false

/-- A JSON value as stored in the open `jsonb` metadata bags. -/
inductive JsonVal where
  | num (q : Rat)
  | str (s : String)
  | jbool (b : Bool)
  | jnull
deriving Repr, DecidableEq

/-- A JSON object: key/value pairs in insertion order. -/
abbrev Metadata := List (String × JsonVal)

/-- Field access `obj[k]` on a JSON object. -/
def Metadata.lookupKey (m : Metadata) (k : String) : Option JsonVal :=
  (m.find? (fun p => p.1 = k)).map (fun p => p.2)

/-! ## Entity shapes (src/shared/schema.ts and src/unnamed/part_012) -/

/-- users table row. -/
structure User where
  id : Nat
  username : String
  password : String
deriving Repr, DecidableEq

/-- insertUserSchema payload. -/
structure InsertUser where
  username : String
  password : String
deriving Repr, DecidableEq

/-- scripts table row (src/unnamed/part_012 lines 18-31). -/
structure Script where
  id : Nat
  title : String
  topic : String
  format : String
  content : String
  duration : Option Int
  tone : Option String
  targetAudience : Option String
  createdAt : Millis
  audioPath : Option String
  status : String
deriving Repr, DecidableEq

/-- insertScriptSchema payload. -/
structure InsertScript where
  title : String
  topic : String
  format : String
  content : String
  duration : Option Int := none
  tone : Option String := none
  targetAudience : Option String := none
  audioPath : Option String := none
  status : Option String := none
deriving Repr, DecidableEq

/-- ai_configs table row (src/unnamed/part_012 lines 45-56). -/
structure AiConfig where
  id : Nat
  name : String
  modelType : String
  modelName : String
  active : Bool
  settings : Option Metadata
  capabilities : Option Metadata
  lastUpdated : Millis
  downloadStatus : Option String
deriving Repr, DecidableEq

/-- insertAiConfigSchema payload (note: lastUpdated is not in the pick list). -/
structure InsertAiConfig where
  name : String
  modelType : String
  modelName : String
  active : Option Bool := none
  settings : Option Metadata := none
  capabilities : Option Metadata := none
  downloadStatus : Option String := none
deriving Repr, DecidableEq

/-- platforms table row. -/
structure Platform where
  id : Nat
  name : String
  icon : String
  active : Bool
deriving Repr, DecidableEq

/-- insertPlatformSchema payload. -/
structure InsertPlatform where
  name : String
  icon : String
  active : Option Bool := none
deriving Repr, DecidableEq

/-- platform_accounts table row. -/
structure PlatformAccount where
  id : Nat
  platformId : Nat
  name : String
  username : String
  accessToken : Option String
  refreshToken : Option String
  tokenExpiry : Option Millis
  followerCount : Option Int
  active : Bool
  metadata : Option Metadata
deriving Repr, DecidableEq

/-- insertPlatformAccountSchema payload. -/
structure InsertPlatformAccount where
  platformId : Nat
  name : String
  username : String
  accessToken : Option String := none
  refreshToken : Option String := none
  tokenExpiry : Option Millis := none
  followerCount : Option Int := none
  active : Option Bool := none
  metadata : Option Metadata := none
deriving Repr, DecidableEq

/-- content table row. -/
structure Content where
  id : Nat
  title : String
  description : Option String
  contentType : String
  status : String
  filePath : Option String
  thumbnailPath : Option String
  metadata : Option Metadata
  createdAt : Millis
deriving Repr, DecidableEq

/-- insertContentSchema payload. -/
structure InsertContent where
  title : String
  description : Option String := none
  contentType : String
  status : Option String := none
  filePath : Option String := none
  thumbnailPath : Option String := none
  metadata : Option Metadata := none
deriving Repr, DecidableEq

/-- scheduled_posts table row. -/
structure ScheduledPost where
  id : Nat
  contentId : Nat
  platformAccountId : Nat
  scheduledTime : Millis
  status : String
  postId : Option String
  error : Option String
deriving Repr, DecidableEq

/-- insertScheduledPostSchema payload. -/
structure InsertScheduledPost where
  contentId : Nat
  platformAccountId : Nat
  scheduledTime : Millis
  status : Option String := none
deriving Repr, DecidableEq

/-- trending_topics table row.  `trendScore` is an `integer` column with no
range constraint in the schema. -/
structure TrendingTopic where
  id : Nat
  topic : String
  category : String
  description : Option String
  trendScore : Int
  discoveredAt : Millis
deriving Repr, DecidableEq

/-- insertTrendingTopicSchema payload: topic, category, optional description,
trendScore.  The zod schema derived from the column types enforces only the
types, no numeric range. -/
structure InsertTrendingTopic where
  topic : String
  category : String
  description : Option String := none
  trendScore : Int
deriving Repr, DecidableEq

/-! ## The in-memory store (MemStorage in src/server/scripts.ts) -/

/-- One `Map<number, E>` of MemStorage together with its id counter.
Rows are kept in `Map` iteration order (insertion order). -/
structure Table (E : Type) where
  nextId : Nat
  rows : List E
deriving Repr, DecidableEq

/-- The shared creation pattern of every MemStorage create method:
`const id = this.counter++; const e = mk(id); this.map.set(id, e); return e`. -/
def Table.createRow {E : Type} (t : Table E) (mk : Nat → E) : E × Table E :=
  let e := mk t.nextId
  (e, { nextId := t.nextId + 1, rows := t.rows ++ [e] })

/-- `Map.get(id)` given the id projection of the entity type. -/
def Table.getRow {E : Type} (t : Table E) (getId : E → Nat) (id : Nat) : Option E :=
  t.rows.find? (fun e => getId e = id)

/-- `Map.set(id, e)` on an existing key: the row keeps its position. -/
def Table.setRow {E : Type} (t : Table E) (getId : E → Nat) (id : Nat) (e : E) : Table E :=
  { t with rows := t.rows.map (fun x => if getId x = id then e else x) }

/-- `Map.delete(id)`: returns whether the key existed. -/
def Table.deleteRow {E : Type} (t : Table E) (getId : E → Nat) (id : Nat) :
    Bool × Table E :=
  (t.rows.any (fun e => getId e = id), { t with rows := t.rows.filter (fun e => getId e != id) })

/-- The whole MemStorage: eight maps with their counters. -/
structure MemStorage where
  users : Table User
  scripts : Table Script
  aiConfigs : Table AiConfig
  platforms : Table Platform
  platformAccounts : Table PlatformAccount
  contents : Table Content
  scheduledPosts : Table ScheduledPost
  trendingTopics : Table TrendingTopic
deriving Repr, DecidableEq

/-- The store right after the constructor sets every counter to 1, before
`seedInitialData` runs.  Theorems quantify over arbitrary reachable states, so
the demo seed records are not replayed here. -/
def MemStorage.empty : MemStorage :=
  { users := { nextId := 1, rows := [] }
    scripts := { nextId := 1, rows := [] }
    aiConfigs := { nextId := 1, rows := [] }
    platforms := { nextId := 1, rows := [] }
    platformAccounts := { nextId := 1, rows := [] }
    contents := { nextId := 1, rows := [] }
    scheduledPosts := { nextId := 1, rows := [] }
    trendingTopics := { nextId := 1, rows := [] } }

/-- Row builder of createUser: `{ ...insertUser, id }`. -/
def userRow (i : InsertUser) : Nat → User :=
  fun id => { id := id, username := i.username, password := i.password }

/-- MemStorage.createUser. -/
def MemStorage.createUser (s : MemStorage) (i : InsertUser) : User × MemStorage :=
  let p := s.users.createRow (userRow i)
  (p.1, { s with users := p.2 })

/-- Row builder of createScript (scripts.ts lines 674-689). -/
def scriptRow (now : Millis) (i : InsertScript) : Nat → Script :=
  fun id =>
    { id := id
      content := i.content
      format := i.format
      title := i.title
      topic := i.topic
      status := strOrDefault i.status "draft"
      audioPath := strOrNull i.audioPath
      duration := intOrNull i.duration
      tone := strOrNull i.tone
      targetAudience := strOrNull i.targetAudience
      createdAt := now }

/-- MemStorage.createScript. -/
def MemStorage.createScript (s : MemStorage) (now : Millis) (i : InsertScript) :
    Script × MemStorage :=
  let p := s.scripts.createRow (scriptRow now i)
  (p.1, { s with scripts := p.2 })

/-- Row builder of createAiConfig (scripts.ts lines 719-734). -/
def aiConfigRow (now : Millis) (i : InsertAiConfig) : Nat → AiConfig :=
  fun id =>
    { id := id
      name := i.name
      modelType := i.modelType
      modelName := i.modelName
      active := i.active.getD true
      settings := some (i.settings.getD [])
      capabilities := some (i.capabilities.getD [])
      lastUpdated := now
      downloadStatus := some (strOrDefault i.downloadStatus "not_downloaded") }

/-- MemStorage.createAiConfig. -/
def MemStorage.createAiConfig (s : MemStorage) (now : Millis) (i : InsertAiConfig) :
    AiConfig × MemStorage :=
  let p := s.aiConfigs.createRow (aiConfigRow now i)
  (p.1, { s with aiConfigs := p.2 })

/-- Row builder of createPlatform (scripts.ts lines 762-771). -/
def platformRow (i : InsertPlatform) : Nat → Platform :=
  fun id =>
    { id := id
      name := i.name
      active := i.active.getD true
      icon := i.icon }

/-- MemStorage.createPlatform. -/
def MemStorage.createPlatform (s : MemStorage) (i : InsertPlatform) :
    Platform × MemStorage :=
  let p := s.platforms.createRow (platformRow i)
  (p.1, { s with platforms := p.2 })

/-- Row builder of createPlatformAccount (scripts.ts lines 802-818). -/
def platformAccountRow (i : InsertPlatformAccount) : Nat → PlatformAccount :=
  fun id =>
    { id := id
      name := i.name
      username := i.username
      active := i.active.getD true
      platformId := i.platformId
      accessToken := strOrNull i.accessToken
      refreshToken := strOrNull i.refreshToken
      tokenExpiry := i.tokenExpiry
      followerCount := intOrNull i.followerCount
      metadata := some (i.metadata.getD []) }

/-- MemStorage.createPlatformAccount. -/
def MemStorage.createPlatformAccount (s : MemStorage) (i : InsertPlatformAccount) :
    PlatformAccount × MemStorage :=
  let p := s.platformAccounts.createRow (platformAccountRow i)
  (p.1, { s with platformAccounts := p.2 })

/-- Row builder of createContent (scripts.ts lines 848-863). -/
def contentRow (now : Millis) (i : InsertContent) : Nat → Content :=
  fun id =>
    { id := id
      title := i.title
      contentType := i.contentType
      status := strOrDefault i.status "draft"
      metadata := some (i.metadata.getD [])
      description := strOrNull i.description
      filePath := strOrNull i.filePath
      thumbnailPath := strOrNull i.thumbnailPath
      createdAt := now }

/-- MemStorage.createContent. -/
def MemStorage.createContent (s : MemStorage) (now : Millis) (i : InsertContent) :
    Content × MemStorage :=
  let p := s.contents.createRow (contentRow now i)
  (p.1, { s with contents := p.2 })

/-- Row builder of createScheduledPost (scripts.ts lines 895-907). -/
def scheduledPostRow (i : InsertScheduledPost) : Nat → ScheduledPost :=
  fun id =>
    { id := id
      contentId := i.contentId
      platformAccountId := i.platformAccountId
      scheduledTime := i.scheduledTime
      status := strOrDefault i.status "pending"
      postId := none
      error := none }

/-- MemStorage.createScheduledPost. -/
def MemStorage.createScheduledPost (s : MemStorage) (i : InsertScheduledPost) :
    ScheduledPost × MemStorage :=
  let p := s.scheduledPosts.createRow (scheduledPostRow i)
  (p.1, { s with scheduledPosts := p.2 })

/-- Row builder of createTrendingTopic (scripts.ts lines 938-950). -/
def trendingTopicRow (now : Millis) (i : InsertTrendingTopic) : Nat → TrendingTopic :=
  fun id =>
    { id := id
      topic := i.topic
      description := strOrNull i.description
      category := i.category
      trendScore := i.trendScore
      discoveredAt := now }

/-- MemStorage.createTrendingTopic. -/
def MemStorage.createTrendingTopic (s : MemStorage) (now : Millis)
    (i : InsertTrendingTopic) : TrendingTopic × MemStorage :=
  let p := s.trendingTopics.createRow (trendingTopicRow now i)
  (p.1, { s with trendingTopics := p.2 })

/-! ### Read queries -/

/-- MemStorage.getTrendingTopic: `this.trendingTopics.get(id)`. -/
def MemStorage.getTrendingTopic (s : MemStorage) (id : Nat) : Option TrendingTopic :=
  s.trendingTopics.getRow TrendingTopic.id id

/-- MemStorage.getContent. -/
def MemStorage.getContent (s : MemStorage) (id : Nat) : Option Content :=
  s.contents.getRow Content.id id

/-- MemStorage.getScript. -/
def MemStorage.getScript (s : MemStorage) (id : Nat) : Option Script :=
  s.scripts.getRow Script.id id

/-- MemStorage.getAiConfig. -/
def MemStorage.getAiConfig (s : MemStorage) (id : Nat) : Option AiConfig :=
  s.aiConfigs.getRow AiConfig.id id

/-- MemStorage.getPlatform. -/
def MemStorage.getPlatform (s : MemStorage) (id : Nat) : Option Platform :=
  s.platforms.getRow Platform.id id

/-- MemStorage.getPlatformAccount. -/
def MemStorage.getPlatformAccount (s : MemStorage) (id : Nat) : Option PlatformAccount :=
  s.platformAccounts.getRow PlatformAccount.id id

/-- MemStorage.getScheduledPost. -/
def MemStorage.getScheduledPost (s : MemStorage) (id : Nat) : Option ScheduledPost :=
  s.scheduledPosts.getRow ScheduledPost.id id

/-- Descending order on trendScore: the JS comparator
`(a, b) => b.trendScore - a.trendScore` puts `a` before `b` exactly when this
relation holds (ties in either order). -/
def topicScoreDesc (a b : TrendingTopic) : Prop := b.trendScore ≤ a.trendScore

instance : DecidableRel topicScoreDesc := fun a b => by
  unfold topicScoreDesc; infer_instance

instance : IsTotal TrendingTopic topicScoreDesc :=
  ⟨fun a b => le_total b.trendScore a.trendScore⟩

instance : IsTrans TrendingTopic topicScoreDesc :=
  ⟨fun _ _ _ h1 h2 => le_trans h2 h1⟩

/-- Ascending order on scheduledTime, from the JS comparator
`(a, b) => a.scheduledTime.getTime() - b.scheduledTime.getTime()`. -/
def postTimeAsc (a b : ScheduledPost) : Prop := a.scheduledTime ≤ b.scheduledTime

instance : DecidableRel postTimeAsc := fun a b => by
  unfold postTimeAsc; infer_instance

instance : IsTotal ScheduledPost postTimeAsc :=
  ⟨fun a b => le_total a.scheduledTime b.scheduledTime⟩

instance : IsTrans ScheduledPost postTimeAsc :=
  ⟨fun _ _ _ h1 h2 => le_trans h1 h2⟩

/-- MemStorage.getTopTrendingTopics (scripts.ts lines 932-936):
`Array.from(values()).sort((a, b) => b.trendScore - a.trendScore).slice(0, limit)`.
`Array.prototype.sort` is a stable sort under the comparator, embedded here by
insertion sort (stable with respect to `topicScoreDesc`). -/
def MemStorage.getTopTrendingTopics (s : MemStorage) (limit : Nat) : List TrendingTopic :=
  (List.insertionSort topicScoreDesc s.trendingTopics.rows).take limit

/-- MemStorage.getUpcomingScheduledPosts (scripts.ts lines 887-893):
filter `scheduledTime > now`, sort ascending, take `limit`. -/
def MemStorage.getUpcomingScheduledPosts (s : MemStorage) (now : Millis)
    (limit : Nat) : List ScheduledPost :=
  (List.insertionSort postTimeAsc
      (s.scheduledPosts.rows.filter (fun p => now < p.scheduledTime))).take limit

/-- MemStorage.getPlatformAccountsByPlatform (scripts.ts lines 796-800):
filter on platformId only; the active flag is not consulted. -/
def MemStorage.getPlatformAccountsByPlatform (s : MemStorage) (platformId : Nat) :
    List PlatformAccount :=
  s.platformAccounts.rows.filter (fun account => account.platformId = platformId)

/-! ### Updates

Each update method does `{ ...existing, ...patch }` on the stored record.  A
patch is a `Partial` insert shape: a field is either absent (`none`) or
present with a value; present fields overwrite, absent fields leave the
stored value unchanged.  Fields whose insert type is itself nullable are
`Option (Option _)` in the patch. -/

/-- Partial insert shape for scripts. -/
structure ScriptPatch where
  title : Option String := none
  topic : Option String := none
  format : Option String := none
  content : Option String := none
  duration : Option (Option Int) := none
  tone : Option (Option String) := none
  targetAudience : Option (Option String) := none
  audioPath : Option (Option String) := none
  status : Option String := none
deriving Repr, DecidableEq

/-- `{ ...existingScript, ...scriptUpdate }`. -/
def mergeScript (e : Script) (p : ScriptPatch) : Script :=
  { id := e.id
    title := p.title.getD e.title
    topic := p.topic.getD e.topic
    format := p.format.getD e.format
    content := p.content.getD e.content
    duration := p.duration.getD e.duration
    tone := p.tone.getD e.tone
    targetAudience := p.targetAudience.getD e.targetAudience
    audioPath := p.audioPath.getD e.audioPath
    status := p.status.getD e.status
    createdAt := e.createdAt }

/-- MemStorage.updateScript (scripts.ts lines 691-698). -/
def MemStorage.updateScript (s : MemStorage) (id : Nat) (p : ScriptPatch) :
    Option Script × MemStorage :=
  match s.scripts.getRow Script.id id with
  | none => (none, s)
  | some e =>
    let u := mergeScript e p
    (some u, { s with scripts := s.scripts.setRow Script.id id u })

/-- Partial insert shape for ai_configs (lastUpdated is not an insert field). -/
structure AiConfigPatch where
  name : Option String := none
  modelType : Option String := none
  modelName : Option String := none
  active : Option Bool := none
  settings : Option (Option Metadata) := none
  capabilities : Option (Option Metadata) := none
  downloadStatus : Option (Option String) := none
deriving Repr, DecidableEq

/-- `{ ...existingConfig, ...configUpdate, lastUpdated: new Date() }`
(scripts.ts lines 736-747): the merge always overwrites lastUpdated with the
call-time clock. -/
def mergeAiConfig (e : AiConfig) (p : AiConfigPatch) (now : Millis) : AiConfig :=
  { id := e.id
    name := p.name.getD e.name
    modelType := p.modelType.getD e.modelType
    modelName := p.modelName.getD e.modelName
    active := p.active.getD e.active
    settings := p.settings.getD e.settings
    capabilities := p.capabilities.getD e.capabilities
    lastUpdated := now
    downloadStatus := p.downloadStatus.getD e.downloadStatus }

/-- MemStorage.updateAiConfig. -/
def MemStorage.updateAiConfig (s : MemStorage) (now : Millis) (id : Nat)
    (p : AiConfigPatch) : Option AiConfig × MemStorage :=
  match s.aiConfigs.getRow AiConfig.id id with
  | none => (none, s)
  | some e =>
    let u := mergeAiConfig e p now
    (some u, { s with aiConfigs := s.aiConfigs.setRow AiConfig.id id u })

/-- Partial insert shape for platforms. -/
structure PlatformPatch where
  name : Option String := none
  icon : Option String := none
  active : Option Bool := none
deriving Repr, DecidableEq

/-- `{ ...existingPlatform, ...platform }`. -/
def mergePlatform (e : Platform) (p : PlatformPatch) : Platform :=
  { id := e.id
    name := p.name.getD e.name
    icon := p.icon.getD e.icon
    active := p.active.getD e.active }

/-- MemStorage.updatePlatform (scripts.ts lines 773-780). -/
def MemStorage.updatePlatform (s : MemStorage) (id : Nat) (p : PlatformPatch) :
    Option Platform × MemStorage :=
  match s.platforms.getRow Platform.id id with
  | none => (none, s)
  | some e =>
    let u := mergePlatform e p
    (some u, { s with platforms := s.platforms.setRow Platform.id id u })

/-- Partial insert shape for platform_accounts. -/
structure PlatformAccountPatch where
  platformId : Option Nat := none
  name : Option String := none
  username : Option String := none
  accessToken : Option (Option String) := none
  refreshToken : Option (Option String) := none
  tokenExpiry : Option (Option Millis) := none
  followerCount : Option (Option Int) := none
  active : Option Bool := none
  metadata : Option (Option Metadata) := none
deriving Repr, DecidableEq

/-- `{ ...existingAccount, ...account }`. -/
def mergePlatformAccount (e : PlatformAccount) (p : PlatformAccountPatch) :
    PlatformAccount :=
  { id := e.id
    platformId := p.platformId.getD e.platformId
    name := p.name.getD e.name
    username := p.username.getD e.username
    accessToken := p.accessToken.getD e.accessToken
    refreshToken := p.refreshToken.getD e.refreshToken
    tokenExpiry := p.tokenExpiry.getD e.tokenExpiry
    followerCount := p.followerCount.getD e.followerCount
    active := p.active.getD e.active
    metadata := p.metadata.getD e.metadata }

/-- MemStorage.updatePlatformAccount (scripts.ts lines 820-827). -/
def MemStorage.updatePlatformAccount (s : MemStorage) (id : Nat)
    (p : PlatformAccountPatch) : Option PlatformAccount × MemStorage :=
  match s.platformAccounts.getRow PlatformAccount.id id with
  | none => (none, s)
  | some e =>
    let u := mergePlatformAccount e p
    (some u, { s with platformAccounts := s.platformAccounts.setRow PlatformAccount.id id u })

/-- Partial insert shape for content. -/
structure ContentPatch where
  title : Option String := none
  description : Option (Option String) := none
  contentType : Option String := none
  status : Option String := none
  filePath : Option (Option String) := none
  thumbnailPath : Option (Option String) := none
  metadata : Option (Option Metadata) := none
deriving Repr, DecidableEq

/-- `{ ...existingContent, ...contentUpdate }` (scripts.ts lines 865-872). -/
def mergeContent (e : Content) (p : ContentPatch) : Content :=
  { id := e.id
    title := p.title.getD e.title
    description := p.description.getD e.description
    contentType := p.contentType.getD e.contentType
    status := p.status.getD e.status
    filePath := p.filePath.getD e.filePath
    thumbnailPath := p.thumbnailPath.getD e.thumbnailPath
    metadata := p.metadata.getD e.metadata
    createdAt := e.createdAt }

/-- MemStorage.updateContent. -/
def MemStorage.updateContent (s : MemStorage) (id : Nat) (p : ContentPatch) :
    Option Content × MemStorage :=
  match s.contents.getRow Content.id id with
  | none => (none, s)
  | some e =>
    let u := mergeContent e p
    (some u, { s with contents := s.contents.setRow Content.id id u })

/-- Partial insert shape for scheduled_posts. -/
structure ScheduledPostPatch where
  contentId : Option Nat := none
  platformAccountId : Option Nat := none
  scheduledTime : Option Millis := none
  status : Option String := none
deriving Repr, DecidableEq

/-- `{ ...existingPost, ...postUpdate }`. -/
def mergeScheduledPost (e : ScheduledPost) (p : ScheduledPostPatch) : ScheduledPost :=
  { id := e.id
    contentId := p.contentId.getD e.contentId
    platformAccountId := p.platformAccountId.getD e.platformAccountId
    scheduledTime := p.scheduledTime.getD e.scheduledTime
    status := p.status.getD e.status
    postId := e.postId
    error := e.error }

/-- MemStorage.updateScheduledPost (scripts.ts lines 909-916). -/
def MemStorage.updateScheduledPost (s : MemStorage) (id : Nat)
    (p : ScheduledPostPatch) : Option ScheduledPost × MemStorage :=
  match s.scheduledPosts.getRow ScheduledPost.id id with
  | none => (none, s)
  | some e =>
    let u := mergeScheduledPost e p
    (some u, { s with scheduledPosts := s.scheduledPosts.setRow ScheduledPost.id id u })

/-- Partial insert shape for trending_topics. -/
structure TrendingTopicPatch where
  topic : Option String := none
  category : Option String := none
  description : Option (Option String) := none
  trendScore : Option Int := none
deriving Repr, DecidableEq

/-- `{ ...existingTopic, ...topicUpdate }` (scripts.ts lines 952-959). -/
def mergeTrendingTopic (e : TrendingTopic) (p : TrendingTopicPatch) : TrendingTopic :=
  { id := e.id
    topic := p.topic.getD e.topic
    category := p.category.getD e.category
    description := p.description.getD e.description
    trendScore := p.trendScore.getD e.trendScore
    discoveredAt := e.discoveredAt }

/-- MemStorage.updateTrendingTopic. -/
def MemStorage.updateTrendingTopic (s : MemStorage) (id : Nat)
    (p : TrendingTopicPatch) : Option TrendingTopic × MemStorage :=
  match s.trendingTopics.getRow TrendingTopic.id id with
  | none => (none, s)
  | some e =>
    let u := mergeTrendingTopic e p
    (some u, { s with trendingTopics := s.trendingTopics.setRow TrendingTopic.id id u })

/-! ## LocalTTS (src/server/routes/aiToolsRoutes.ts lines 547-760)

Only the voice ids of `availableVoices` drive control flow; the per-voice
metadata (name, accent, sample rate, download size) affects nothing but the
simulated delay, which has no observable effect in the embedding. -/

/-- The keys of the `availableVoices` record, in declaration order. -/
def availableVoiceIds : List String :=
  ["professional-male", "professional-female", "casual-male",
   "casual-female", "energetic-male", "narrative-female"]

/-- Mutable state of the LocalTTS singleton. -/
structure TTSState where
  downloadedVoices : List String
  audioCounter : Nat
deriving Repr, DecidableEq

/-- Initial state: two voices preloaded, counter 1. -/
def TTSState.initial : TTSState :=
  { downloadedVoices := ["professional-male", "professional-female"], audioCounter := 1 }

/-- `Set.add`: appends if the element is not already present. -/
def addToSet (l : List String) (x : String) : List String :=
  if x ∈ l then l else l ++ [x]

/-- LocalTTS.downloadVoice (lines 652-672): unknown voice id resolves false
without changing state; a known id is added to the downloaded set. -/
def downloadVoice (st : TTSState) (voiceId : String) : Bool × TTSState :=
  if voiceId ∈ availableVoiceIds then
    (true, { st with downloadedVoices := addToSet st.downloadedVoices voiceId })
  else
    (false, st)

/-- Multiplication on `Rat` written through `Rat.divInt` so that it stays
kernel computable (the Batteries field operations are irreducible); it
agrees with the field multiplication of the rationals. -/
def ratMul (a b : Rat) : Rat := Rat.divInt (a.num * b.num) (a.den * b.den)

/-- Addition on `Rat` through `Rat.divInt`; agrees with field addition. -/
def ratAdd (a b : Rat) : Rat := Rat.divInt (a.num * b.den + b.num * a.den) (a.den * b.den)

/-- Division on `Rat` through `Rat.divInt`; agrees with field division, with
division by zero giving zero as in `Rat.div`. -/
def ratDiv (a b : Rat) : Rat := Rat.divInt (a.num * b.den) (a.den * b.num)

/-- `Math.min` on rationals. -/
def ratMin (a b : Rat) : Rat := if a ≤ b then a else b

/-- `Math.round`: half rounds toward positive infinity. -/
def jsRound (q : Rat) : Int := Rat.floor (ratAdd q (Rat.divInt 1 2))

/-- Structural split of a character list at every separator character; like
`String.split`, segments between consecutive separators are kept even when
empty. -/
def splitChars (p : Char → Bool) : List Char → List (List Char)
  | [] => [[]]
  | c :: rest =>
    if p c then [] :: splitChars p rest
    else
      match splitChars p rest with
      | [] => [[c]]
      | g :: gs => (c :: g) :: gs

/-- The lines of a string: split at every newline. -/
def linesOf (s : String) : List String :=
  (splitChars (fun c => c = '\n') s.toList).map String.mk

/-- `String.prototype.trim`: strip leading and trailing whitespace. -/
def jsTrim (s : String) : String :=
  String.mk
    (((s.toList.dropWhile Char.isWhitespace).reverse.dropWhile Char.isWhitespace).reverse)

/-- `text.split(/\s+/).length`: number of parts produced by splitting on runs
of whitespace.  The empty string yields one part; leading or trailing
whitespace each add an empty part. -/
def jsWordCount (text : String) : Nat :=
  if text.isEmpty then 1
  else
    ((splitChars Char.isWhitespace text.toList).filter (fun t => !t.isEmpty)).length
      + (if text.front.isWhitespace then 1 else 0)
      + (if text.back.isWhitespace then 1 else 0)

/-- TTS generation settings with their defaults (speed 1.0, format mp3).
Pitch and volume are carried but never read by the generation logic. -/
structure TTSSettings where
  speed : Rat
  pitch : Rat
  volume : Rat
  format : String
deriving Repr, DecidableEq

/-- `defaultSettings` of LocalTTS. -/
def defaultTTSSettings : TTSSettings :=
  { speed := 1, pitch := 1, volume := 1, format := "mp3" }

/-- A `Partial<TTSSettings>` argument. -/
structure TTSSettingsPatch where
  speed : Option Rat := none
  pitch : Option Rat := none
  volume : Option Rat := none
  format : Option String := none
deriving Repr, DecidableEq

/-- `{ ...defaultSettings, ...settings }`. -/
def mergeTTSSettings (p : TTSSettingsPatch) : TTSSettings :=
  { speed := p.speed.getD defaultTTSSettings.speed
    pitch := p.pitch.getD defaultTTSSettings.pitch
    volume := p.volume.getD defaultTTSSettings.volume
    format := p.format.getD defaultTTSSettings.format }

/-- Result of textToAudio. -/
structure AudioResult where
  audioPath : String
  durationMs : Int
  format : String
  wordCount : Nat
deriving Repr, DecidableEq

/-- LocalTTS.textToAudio (lines 677-725).  If the voice is not downloaded it
is lazily downloaded; when that fails the call rejects with an error naming
the voice.  Otherwise the simulated audio result is produced and the audio
counter advances. -/
def textToAudio (st : TTSState) (now : Millis) (text voiceId : String)
    (settings : TTSSettingsPatch) : Except String AudioResult × TTSState :=
  let acquired : Except String TTSState :=
    if voiceId ∈ st.downloadedVoices then .ok st
    else
      let dl := downloadVoice st voiceId
      if dl.1 then .ok dl.2
      else .error ("Voice " ++ voiceId ++ " is not available and could not be downloaded")
  match acquired with
  | .error e => (.error e, st)
  | .ok st1 =>
    let merged := mergeTTSSettings settings
    let wordCount := jsWordCount text
    let wordsPerSecond : Rat := ratMul (Rat.divInt 5 2) merged.speed
    let durationMs := jsRound (ratMul (ratDiv (wordCount : Rat) wordsPerSecond) 1000)
    let filename :=
      "tts_" ++ toString st1.audioCounter ++ "_" ++ toString now ++ "." ++ merged.format
    (.ok
      { audioPath := "/content/audio/" ++ filename
        durationMs := durationMs
        format := merged.format
        wordCount := wordCount },
     { st1 with audioCounter := st1.audioCounter + 1 })

/-- Keeps the characters the final cleanup of prepareScriptForTTS retains:
the class `[\w\s.,?!;:()\-"']` (ASCII word characters, whitespace and the
listed punctuation). -/
def keepTTSChar (c : Char) : Bool :=
  c.isAlphanum || c = '_' || c.isWhitespace ||
    c = '.' || c = ',' || c = '?' || c = '!' || c = ';' || c = ':' ||
    c = '(' || c = ')' || c = '-' || c = '"' || c = '\''

/-- A line matched by `/^#\s+.*$/`: a hash followed by at least one
whitespace character. -/
def isMarkdownHeaderLine (l : String) : Bool :=
  !l.isEmpty && l.front = '#' && !(l.drop 1).isEmpty && (l.drop 1).front.isWhitespace

/-- First pass of prepareScriptForTTS: markdown header lines are replaced by
empty lines. -/
def removeMarkdownHeaders (s : String) : String :=
  String.intercalate "\n" ((linesOf s).map (fun l =>
    if isMarkdownHeaderLine l then "" else l))

/-- Position of the next `]` before any newline, for the lazy match
`/\[.*?\]/g` in which `.` does not cross lines. -/
def findCloseIdx : List Char → Option Nat
  | [] => none
  | c :: rest =>
    if c = ']' then some 0
    else if c = '\n' then none
    else (findCloseIdx rest).map (fun k => k + 1)

/-- Second pass of prepareScriptForTTS: delete every `[...]` span that closes
on the same line; an unclosed bracket stays. -/
def removeBracketSpans : List Char → List Char
  | [] => []
  | c :: rest =>
    if c = '[' then
      match findCloseIdx rest with
      | some k => removeBracketSpans (rest.drop (k + 1))
      | none => c :: removeBracketSpans rest
    else c :: removeBracketSpans rest
termination_by l => l.length
decreasing_by
  · simp only [List.length_drop, List.length_cons]; omega
  · simp only [List.length_cons]; omega
  · simp only [List.length_cons]; omega

/-- Third pass: `\n{3,}` collapses to a double newline. -/
def collapseNewlines : List Char → List Char
  | [] => []
  | c :: rest =>
    if c = '\n' then
      let k := (rest.takeWhile (fun x => x = '\n')).length
      (if k + 1 ≥ 3 then List.replicate 2 '\n' else List.replicate (k + 1) '\n')
        ++ collapseNewlines (rest.drop k)
    else c :: collapseNewlines rest
termination_by l => l.length
decreasing_by
  · simp only [List.length_drop, List.length_cons]; omega
  · simp only [List.length_cons]; omega

/-- Fourth pass: every `\n\n` becomes `\n(pause)\n`. -/
def insertPauses : List Char → List Char
  | '\n' :: '\n' :: rest => '\n' :: ("(pause)".toList ++ '\n' :: insertPauses rest)
  | c :: rest => c :: insertPauses rest
  | [] => []

/-- LocalTTS.prepareScriptForTTS (lines 822-839). -/
def prepareScriptForTTS (script : String) : String :=
  let cleaned1 := removeMarkdownHeaders script
  let cleaned2 := String.mk (removeBracketSpans cleaned1.toList)
  let cleaned3 := String.mk (insertPauses (collapseNewlines cleaned2.toList))
  String.mk (cleaned3.toList.filter keepTTSChar)

/-- LocalTTS.scriptToAudio (lines 741-755): clean the script, then call
textToAudio with only the format setting. -/
def scriptToAudio (st : TTSState) (now : Millis) (scriptContent voiceId : String)
    (format : String) : Except String AudioResult × TTSState :=
  let cleanedScript := prepareScriptForTTS scriptContent
  textToAudio st now cleanedScript voiceId { format := some format }

/-! ## LocalImageGenerator (src/server/services/zeroAI/localImageGenerator.ts) -/

/-- The fields of an image model that the generation logic reads. -/
structure ImageModel where
  id : String
  supportedStyles : List String
  supportedSizes : List String
  supportedFormats : List String
  downloadSizeGB : Rat
  generationTimeSeconds : Nat
deriving Repr, DecidableEq

/-- The `availableModels` record (keys in declaration order). -/
def availableImageModels : List (String × ImageModel) :=
  [("svg-generator",
    { id := "svg-generator"
      supportedStyles := ["minimalist", "abstract", "cartoon"]
      supportedSizes := ["512x512", "1024x1024", "1280x720"]
      supportedFormats := ["svg", "png"]
      downloadSizeGB := Rat.divInt 1 5
      generationTimeSeconds := 3 }),
   ("stable-diffusion-lite",
    { id := "stable-diffusion-lite"
      supportedStyles := ["photorealistic", "artistic", "abstract"]
      supportedSizes := ["512x512", "768x768"]
      supportedFormats := ["jpg", "png"]
      downloadSizeGB := Rat.divInt 5 2
      generationTimeSeconds := 15 }),
   ("sketch-generator",
    { id := "sketch-generator"
      supportedStyles := ["minimalist", "cartoon"]
      supportedSizes := ["512x512", "1024x1024"]
      supportedFormats := ["png", "svg"]
      downloadSizeGB := Rat.divInt 4 5
      generationTimeSeconds := 5 })]

/-- `availableModels[modelId]`. -/
def findImageModel (modelId : String) : Option ImageModel :=
  (availableImageModels.find? (fun p => p.1 = modelId)).map (fun p => p.2)

/-- Mutable state of the LocalImageGenerator singleton. -/
structure ImageGenState where
  downloadedModels : List String
  activeModel : String
  imageCounter : Nat
deriving Repr, DecidableEq

/-- Initial state: the svg model preloaded and active, counter 1. -/
def ImageGenState.initial : ImageGenState :=
  { downloadedModels := ["svg-generator"], activeModel := "svg-generator", imageCounter := 1 }

/-- LocalImageGenerator.ensureModel (lines 99-127): false for an unknown id,
otherwise marks the model downloaded and active. -/
def ensureModel (st : ImageGenState) (modelId : String) : Bool × ImageGenState :=
  if (findImageModel modelId).isNone then (false, st)
  else if modelId ∈ st.downloadedModels then (true, { st with activeModel := modelId })
  else
    (true,
     { st with
        downloadedModels := addToSet st.downloadedModels modelId
        activeModel := modelId })

/-- Parameters of generateImage. -/
structure ImageGenParams where
  prompt : String
  negativePrompt : Option String := none
  size : Option String := none
  style : Option String := none
  format : Option String := none
  seed : Option Int := none
  modelId : Option String := none
deriving Repr, DecidableEq

/-- `params.x && model.supportedXs.includes(params.x) ? params.x :
model.supportedXs[0]`. -/
def pickSupported (req : Option String) (supported : List String) : String :=
  match req with
  | some s => if !s.isEmpty && supported.contains s then s else supported.headD ""
  | none => supported.headD ""

/-- Result of generateImage. -/
structure ImageResult where
  imagePath : String
  prompt : String
  size : String
  style : String
  format : String
  generationTime : Rat
deriving Repr, DecidableEq

/-- LocalImageGenerator.generateImage (lines 132-186).  If the requested
model is not downloaded, `ensureModel` runs with its result ignored; indexing
`availableModels` with an unknown id then crashes (a TypeError rejection in
JavaScript, an error result here).  Otherwise size, style and format fall
back to the first supported choice and a fresh path is produced. -/
def generateImage (st : ImageGenState) (now : Millis) (params : ImageGenParams) :
    Except String ImageResult × ImageGenState :=
  let modelId := strOrDefault params.modelId st.activeModel
  let st1 := if modelId ∈ st.downloadedModels then st else (ensureModel st modelId).2
  match findImageModel modelId with
  | none =>
    (.error "TypeError: cannot read properties of undefined (availableModels)", st1)
  | some model =>
    let size := pickSupported params.size model.supportedSizes
    let style := pickSupported params.style model.supportedStyles
    let format := pickSupported params.format model.supportedFormats
    let filename := "img_" ++ toString st1.imageCounter ++ "_" ++ toString now ++ "." ++ format
    let imagePath := "/content/images/" ++ filename
    let baseTime : Rat := ratMul (model.generationTimeSeconds : Rat) 1000
    let sizeMultiplier : Rat :=
      if size = "1024x1024" then Rat.divInt 3 2 else if size = "1920x1080" then 2 else 1
    let processingTime : Rat := ratMin 5000 (ratMul baseTime sizeMultiplier)
    (.ok
      { imagePath := imagePath
        prompt := params.prompt
        size := size
        style := style
        format := format
        generationTime := ratDiv processingTime 1000 },
     { st1 with imageCounter := st1.imageCounter + 1 })

/-- Result of generateThumbnail. -/
structure ThumbnailResult where
  thumbnailPath : String
  prompt : String
  size : String
  style : String
deriving Repr, DecidableEq

/-- LocalImageGenerator.generateThumbnail (lines 191-225): always succeeds,
produces a fresh thumbnail path and advances the image counter. -/
def generateThumbnail (st : ImageGenState) (now : Millis) (topic : String)
    (style : String := "artistic") (size : String := "1280x720") :
    ThumbnailResult × ImageGenState :=
  let prompt :=
    "Thumbnail image for content about \"" ++ topic ++
      "\". Vibrant colors, eye-catching design, professional looking, " ++ style ++
      " style, suitable for social media thumbnail"
  let filename := "thumb_" ++ toString st.imageCounter ++ "_" ++ toString now ++ ".png"
  ({ thumbnailPath := "/content/thumbnails/" ++ filename
     prompt := prompt
     size := size
     style := style },
   { st with imageCounter := st.imageCounter + 1 })

/-! ## VideoGenerator (second document in localImageGenerator.ts, lines 350-689) -/

/-- A section of a script as produced by splitScriptIntoSections.  The source
field named `type` is called `kind` here (`type` is reserved in Lean). -/
structure ScriptSection where
  text : String
  kind : String
  title : Option String := none
  imagePrompt : Option String := none
deriving Repr, DecidableEq

/-- Truthiness of an optional string (`if (section.title)`). -/
def optStrTruthy (o : Option String) : Bool :=
  match o with
  | some s => !s.isEmpty
  | none => false

/-- Substring containment over character lists. -/
def charsContains (pat : List Char) : List Char → Bool
  | [] => pat.isPrefixOf []
  | c :: rest => pat.isPrefixOf (c :: rest) || charsContains pat rest

/-- `s.toLowerCase().includes(pat)` for a lowercase pattern. -/
def lowerIncludes (s pat : String) : Bool :=
  charsContains pat.toList (s.toList.map Char.toLower)

/-- VideoGenerator.splitScriptIntoSections (lines 510-563): split on
markdown header lines; without headers the whole script is one main section,
otherwise the pre-header text becomes an intro and each header starts a
section classified by its title. -/
def gatherSections (curTitle : Option String) (acc : List String) :
    List String → List (Option String × String)
  | [] => [(curTitle, String.intercalate "\n" acc)]
  | l :: ls =>
    if isMarkdownHeaderLine l then
      (curTitle, String.intercalate "\n" acc) :: gatherSections (some (jsTrim (l.drop 1))) [] ls
    else gatherSections curTitle (acc ++ [l]) ls

/-- Classification of the gathered parts, as in the source loop. -/
def splitScriptIntoSections (script : String) : List ScriptSection :=
  let lines := linesOf script
  if lines.all (fun l => !isMarkdownHeaderLine l) then
    [{ text := jsTrim script, kind := "main" }]
  else
    (gatherSections none [] lines).filterMap (fun g =>
      match g.1 with
      | none =>
        let t := jsTrim g.2
        if t.isEmpty then none
        else some { text := t, kind := "intro" }
      | some title =>
        let contentText := jsTrim g.2
        if contentText.isEmpty then none
        else if lowerIncludes title "intro" then
          some { text := contentText, kind := "intro", title := some title }
        else if lowerIncludes title "conclu" then
          some { text := contentText, kind := "conclusion", title := some title }
        else some { text := contentText, kind := "section", title := some title })

/-- The image prompt generateVisualElements derives for one section. -/
def sectionPrompt (sec : ScriptSection) : String :=
  if optStrTruthy sec.imagePrompt then sec.imagePrompt.getD ""
  else
    let basePrompt :=
      if optStrTruthy sec.title then
        "Visual representing \"" ++ sec.title.getD "" ++ "\". "
      else if sec.kind = "intro" then
        "Visual introduction representing the main topic. "
      else if sec.kind = "conclusion" then
        "Visual conclusion summarizing the key points. "
      else
        let firstSentence :=
          String.mk ((splitChars (fun c => c = '.' || c = '!' || c = '?')
            sec.text.toList).headD [])
        "Visual for: \"" ++ firstSentence.take 100 ++ "\". "
    basePrompt ++ "Professional, clean composition, high quality for video presentation."

/-- The `sizeMap[resolution] || '1280x720'` lookup. -/
def resolutionToSize (r : String) : String :=
  if r = "480p" then "512x512"
  else if r = "720p" then "1280x720"
  else if r = "1080p" then "1920x1080"
  else "1280x720"

/-- The sequential generateImage loop of generateVisualElements. -/
def visualsLoop (st : ImageGenState) (now : Millis) (imageSize : String) :
    List ScriptSection → Except String (List String) × ImageGenState
  | [] => (.ok [], st)
  | sec :: rest =>
    match
        generateImage st now
          { prompt := sectionPrompt sec, size := some imageSize, style := some "artistic" } with
    | (.error e, st1) => (.error e, st1)
    | (.ok img, st1) =>
      match visualsLoop st1 now imageSize rest with
      | (.error e, st2) => (.error e, st2)
      | (.ok paths, st2) => (.ok (img.imagePath :: paths), st2)

/-- VideoGenerator.generateVisualElements (lines 568-616). -/
def generateVisualElements (st : ImageGenState) (now : Millis)
    (sections : List ScriptSection) (resolution : String) :
    Except String (List String) × ImageGenState :=
  visualsLoop st now (resolutionToSize resolution) sections

/-- Mutable state of the VideoGenerator singleton. -/
structure VideoGenState where
  videoCounter : Nat
deriving Repr, DecidableEq

/-- Initial state: counter 1. -/
def VideoGenState.initial : VideoGenState := { videoCounter := 1 }

/-- VideoGenerator.compileVideo (lines 621-650): produces a fresh simulated
video path. -/
def compileVideo (vid : VideoGenState) (now : Millis) (format : String) :
    String × VideoGenState :=
  let filename := "video_" ++ toString vid.videoCounter ++ "_" ++ toString now ++ "." ++ format
  ("/content/videos/" ++ filename, { videoCounter := vid.videoCounter + 1 })

/-- A video request as the automation router builds it: the script is always
passed as a plain string there, so the ScriptSection[] variant of the source
union type is not reachable in this pipeline. -/
structure VideoRequest where
  script : String
  title : String
  voiceType : Option String := none
  resolution : Option String := none
  style : Option String := none
  backgroundMusic : Option String := none
  outputFormat : Option String := none
  thumbnailPrompt : Option String := none
  outputPath : Option String := none
deriving Repr, DecidableEq

/-- Result of generateVideo. -/
structure VideoResponse where
  videoPath : String
  thumbnailPath : String
  duration : Int
  format : String
  resolution : String
deriving Repr, DecidableEq

/-- VideoGenerator.generateVideo (lines 430-488): audio narration, then the
per-section visuals, then a thumbnail, then video compilation; the duration
is the audio duration in seconds rounded up plus a 5 second buffer.  The
`style` default ("dynamic") only scales the simulated delay and has no
observable effect. -/
def generateVideo (tts : TTSState) (img : ImageGenState) (vid : VideoGenState)
    (now : Millis) (request : VideoRequest) :
    Except String VideoResponse × (TTSState × ImageGenState × VideoGenState) :=
  let scriptSections := splitScriptIntoSections request.script
  let scriptContent := request.script
  let resolution := strOrDefault request.resolution "720p"
  let outputFormat := strOrDefault request.outputFormat "mp4"
  let voiceType := strOrDefault request.voiceType "professional-male"
  match scriptToAudio tts now scriptContent voiceType "mp3" with
  | (.error e, tts1) => (.error e, (tts1, img, vid))
  | (.ok audioResult, tts1) =>
    match generateVisualElements img now scriptSections resolution with
    | (.error e, img1) => (.error e, (tts1, img1, vid))
    | (.ok _visuals, img1) =>
      let thumbnailPrompt := strOrDefault request.thumbnailPrompt ("Thumbnail for " ++ request.title)
      let thumb := generateThumbnail img1 now thumbnailPrompt
      let cv := compileVideo vid now outputFormat
      let duration := Rat.ceil (ratDiv (audioResult.durationMs : Rat) 1000) + 5
      (.ok
        { videoPath := cv.1
          thumbnailPath := thumb.1.thumbnailPath
          duration := duration
          format := outputFormat
          resolution := resolution },
       (tts1, thumb.2, cv.2))

/-! ## The automation create-content pipeline (src/unnamed/part_011 lines 80-297)

The environment bundles the store with the mutable singleton states of the
generation services and the call-time clock.  `scriptText` and `postText`
are the oracle values returned by `localLLM.generateScript` and
`localLLM.generateContent`; those template generators pick phrases with
`Math.random`, so the pipeline treats their output as an arbitrary string. -/

/-- The world state a create-content request runs against. -/
structure AutomationEnv where
  storage : MemStorage
  tts : TTSState
  imageGen : ImageGenState
  videoGen : VideoGenState
  now : Millis
  scriptText : String
  postText : String
deriving Repr, DecidableEq

/-- The validated request body (requestSchema in the route): every field
optional, contentType restricted to video/image/text by the zod enum. -/
structure CreateContentRequest where
  topicId : Option Nat := none
  platformId : Option Nat := none
  contentType : Option String := none
  scheduleImmediately : Option Bool := none
deriving Repr, DecidableEq

/-- The 201 response body of create-content (fields absent in a branch stay
`none`). -/
structure CreateContentOk where
  topic : TrendingTopic
  script : Option Script := none
  content : Content
  video : Option VideoResponse := none
  image : Option ImageResult := none
  text : Option String := none
  scheduledPost : Option ScheduledPost := none
deriving Repr, DecidableEq

/-- Outcome of the create-content route: 201 with a body, 404 with a
message, or 500 with the propagated error message. -/
inductive CreateContentResult where
  | ok (body : CreateContentOk)
  | notFound (msg : String)
  | serverError (msg : String)
deriving Repr, DecidableEq

/-- `request.contentType || "video"`. -/
def effectiveContentType (req : CreateContentRequest) : String :=
  strOrDefault req.contentType "video"

/-- The scheduling step shared by the three branches: when
scheduleImmediately and platformId are truthy, the first account of the
platform (active or not) receives a pending post one hour out; with no
account the step is skipped silently. -/
def scheduleStep (s : MemStorage) (req : CreateContentRequest) (contentId : Nat)
    (now : Millis) : Option ScheduledPost × MemStorage :=
  if req.scheduleImmediately.getD false && natTruthy req.platformId then
    match s.getPlatformAccountsByPlatform (req.platformId.getD 0) with
    | [] => (none, s)
    | account :: _ =>
      let r := s.createScheduledPost
        { contentId := contentId
          platformAccountId := account.id
          scheduledTime := now + 60 * 60 * 1000
          status := some "pending" }
      (some r.1, r.2)
  else (none, s)

/-- The video branch (part_011 lines 111-189): script record, thumbnail,
video, content record, optional scheduling.  When the video generator
rejects, the already created Script record stays in the store (no rollback)
and the route answers 500. -/
def createContentVideoBranch (env : AutomationEnv) (req : CreateContentRequest)
    (topic : TrendingTopic) : CreateContentResult × AutomationEnv :=
  let scriptContent := env.scriptText
  let sc := env.storage.createScript env.now
    { title := "Video about " ++ topic.topic
      topic := topic.topic
      format := "video"
      content := scriptContent
      duration := some 300
      tone := some "educational"
      targetAudience := some "general"
      status := some "draft" }
  let script := sc.1
  let st1 := sc.2
  let tg := generateThumbnail env.imageGen env.now topic.topic
  let img1 := tg.2
  match generateVideo env.tts img1 env.videoGen env.now
      { script := scriptContent
        title := script.title
        resolution := some "720p"
        style := some "dynamic"
        thumbnailPrompt := some ("Thumbnail for video about " ++ topic.topic) } with
  | (.error e, states) =>
    (.serverError e,
     { env with
        storage := st1
        tts := states.1
        imageGen := states.2.1
        videoGen := states.2.2 })
  | (.ok videoResult, states) =>
    let cc := st1.createContent env.now
      { title := script.title
        description := some ("Auto-generated video about " ++ topic.topic)
        contentType := "video"
        status := some "ready"
        filePath := some videoResult.videoPath
        thumbnailPath := some videoResult.thumbnailPath
        metadata := some
          [("duration", .num (videoResult.duration : Rat)),
           ("format", .str videoResult.format),
           ("resolution", .str videoResult.resolution),
           ("scriptId", .num (script.id : Rat)),
           ("topic", .str topic.topic),
           ("automated", .jbool true)] }
    let content := cc.1
    let sp := scheduleStep cc.2 req content.id env.now
    (.ok
      { topic := topic
        script := some script
        content := content
        video := some videoResult
        scheduledPost := sp.1 },
     { env with
        storage := sp.2
        tts := states.1
        imageGen := states.2.1
        videoGen := states.2.2 })

/-- The image branch (part_011 lines 190-241). -/
def createContentImageBranch (env : AutomationEnv) (req : CreateContentRequest)
    (topic : TrendingTopic) : CreateContentResult × AutomationEnv :=
  let imagePrompt :=
    "Create a visually appealing image about " ++ topic.topic ++
      " that would be perfect for social media"
  match generateImage env.imageGen env.now
      { prompt := imagePrompt, size := some "1024x1024", style := some "artistic" } with
  | (.error e, img1) => (.serverError e, { env with imageGen := img1 })
  | (.ok image, img1) =>
    let cc := env.storage.createContent env.now
      { title := "Image about " ++ topic.topic
        description := some (strOrDefault topic.description ("An image about " ++ topic.topic))
        contentType := "image"
        status := some "ready"
        filePath := some image.imagePath
        thumbnailPath := some image.imagePath
        metadata := some
          [("prompt", .str imagePrompt),
           ("style", .str "artistic"),
           ("size", .str image.size),
           ("generationTime", .num image.generationTime),
           ("topic", .str topic.topic),
           ("automated", .jbool true)] }
    let sp := scheduleStep cc.2 req cc.1.id env.now
    (.ok
      { topic := topic
        content := cc.1
        image := some image
        scheduledPost := sp.1 },
     { env with storage := sp.2, imageGen := img1 })

/-- The text branch (part_011 lines 242-290). -/
def createContentTextBranch (env : AutomationEnv) (req : CreateContentRequest)
    (topic : TrendingTopic) : CreateContentResult × AutomationEnv :=
  let postContent := env.postText
  let cc := env.storage.createContent env.now
    { title := "Post about " ++ topic.topic
      description := some postContent
      contentType := "text"
      status := some "ready"
      filePath := none
      thumbnailPath := none
      metadata := some
        [("topic", .str topic.topic),
         ("platform", .str "multiple"),
         ("contentLength", .num (postContent.length : Rat)),
         ("automated", .jbool true)] }
  let sp := scheduleStep cc.2 req cc.1.id env.now
  (.ok
    { topic := topic
      content := cc.1
      text := some postContent
      scheduledPost := sp.1 },
   { env with storage := sp.2 })

/-- Dispatch on `request.contentType || "video"`. -/
def dispatchByType (env : AutomationEnv) (req : CreateContentRequest)
    (topic : TrendingTopic) : CreateContentResult × AutomationEnv :=
  if effectiveContentType req = "video" then createContentVideoBranch env req topic
  else if effectiveContentType req = "image" then createContentImageBranch env req topic
  else createContentTextBranch env req topic

/-- POST /api/automation/create-content: topic resolution (explicit id when
the field is truthy, otherwise the top trending topic), then the branch for
the effective content type. -/
def createContentHandler (env : AutomationEnv) (req : CreateContentRequest) :
    CreateContentResult × AutomationEnv :=
  if natTruthy req.topicId then
    match env.storage.getTrendingTopic (req.topicId.getD 0) with
    | none => (.notFound "Topic not found", env)
    | some topic => dispatchByType env req topic
  else
    match env.storage.getTopTrendingTopics 1 with
    | [] => (.notFound "No trending topics available", env)
    | topic :: _ => dispatchByType env req topic

/-! ## The trending-topics POST route (src/server/routes.ts lines 334-345) -/

/-- insertTrendingTopicSchema.parse on a raw JSON body: topic and category
must be strings, description may be a string, null or absent, trendScore
must be an integer-valued number.  The schema derived from the column types
carries no range constraint on trendScore. -/
def parseInsertTrendingTopic (j : Metadata) : Option InsertTrendingTopic :=
  match j.lookupKey "topic", j.lookupKey "category", j.lookupKey "trendScore" with
  | some (.str topic), some (.str category), some (.num q) =>
    if q.den = 1 then
      match j.lookupKey "description" with
      | some (.str d) => some { topic := topic, category := category, description := some d, trendScore := q.num }
      | some .jnull => some { topic := topic, category := category, description := none, trendScore := q.num }
      | none => some { topic := topic, category := category, description := none, trendScore := q.num }
      | some _ => none
    else none
  | _, _, _ => none

/-- POST /api/trending-topics: validate, create, answer 201 with the created
record; validation failure answers 400. -/
def postTrendingTopicRoute (s : MemStorage) (now : Millis) (body : Metadata) :
    (Nat × Option TrendingTopic) × MemStorage :=
  match parseInsertTrendingTopic body with
  | none => ((400, none), s)
  | some validated =>
    let r := s.createTrendingTopic now validated
    ((201, some r.1), r.2)

/-! ## Lemmas about the derived read queries -/

/-- Everything getTopTrendingTopics returns is a stored topic. -/
lemma topTrending_subset (s : MemStorage) (n : Nat) :
    s.getTopTrendingTopics n ⊆ s.trendingTopics.rows := by
  intro t ht
  exact (List.perm_insertionSort topicScoreDesc s.trendingTopics.rows).mem_iff.mp
    (List.take_subset _ _ ht)

/-- The returned list is sorted by descending trendScore. -/
lemma sorted_topTrending (s : MemStorage) (n : Nat) :
    List.Sorted topicScoreDesc (s.getTopTrendingTopics n) :=
  List.Pairwise.sublist (List.take_sublist _ _)
    (List.sorted_insertionSort topicScoreDesc s.trendingTopics.rows)

/-- When the top-1 query returns a topic, it is a stored topic of maximal
trendScore. -/
lemma topTrending_head_max (s : MemStorage) (t : TrendingTopic)
    (rest : List TrendingTopic) (h : s.getTopTrendingTopics 1 = t :: rest) :
    t ∈ s.trendingTopics.rows ∧
      ∀ u ∈ s.trendingTopics.rows, u.trendScore ≤ t.trendScore := by
  have hmem : t ∈ s.getTopTrendingTopics 1 := by rw [h]; exact List.mem_cons_self _ _
  refine ⟨topTrending_subset s 1 hmem, ?_⟩
  intro u hu
  have hus : u ∈ List.insertionSort topicScoreDesc s.trendingTopics.rows :=
    (List.perm_insertionSort topicScoreDesc s.trendingTopics.rows).mem_iff.mpr hu
  unfold MemStorage.getTopTrendingTopics at h
  cases hsort : List.insertionSort topicScoreDesc s.trendingTopics.rows with
  | nil => rw [hsort] at hus; cases hus
  | cons a tail =>
    rw [hsort] at h hus
    simp only [List.take_succ_cons, List.take_zero] at h
    have hat : a = t := (List.cons.injEq _ _ _ _).mp h |>.1
    subst hat
    have hsorted : List.Sorted topicScoreDesc (a :: tail) := by
      rw [← hsort]; exact List.sorted_insertionSort topicScoreDesc _
    rcases List.mem_cons.mp hus with hu1 | hu2
    · subst hu1; exact le_refl _
    · exact (List.pairwise_cons.mp hsorted).1 u hu2

/-- The top query is empty exactly when no topics are stored. -/
lemma topTrending_one_nil_iff (s : MemStorage) :
    s.getTopTrendingTopics 1 = [] ↔ s.trendingTopics.rows = [] := by
  unfold MemStorage.getTopTrendingTopics
  constructor
  · intro h
    have hperm := List.perm_insertionSort topicScoreDesc s.trendingTopics.rows
    cases hsort : List.insertionSort topicScoreDesc s.trendingTopics.rows with
    | nil => rw [hsort] at hperm; exact hperm.symm.eq_nil
    | cons a tail => rw [hsort] at h; simp at h
  · intro h
    rw [h]
    simp

/-! ## Claim C4 -/

/-- A store with three equally scored topics, on which the tie at the cut
boundary of the top-2 query is visible. -/
def c4Store : MemStorage :=
  { MemStorage.empty with
      trendingTopics :=
        { nextId := 4
          rows :=
            [{ id := 1, topic := "A", category := "Tech", description := none,
               trendScore := 50, discoveredAt := 0 },
             { id := 2, topic := "B", category := "Tech", description := none,
               trendScore := 50, discoveredAt := 0 },
             { id := 3, topic := "C", category := "Tech", description := none,
               trendScore := 50, discoveredAt := 0 }] } }

/-- The third stored topic of the tie. -/
def c4TopicC : TrendingTopic :=
  { id := 3, topic := "C", category := "Tech", description := none,
    trendScore := 50, discoveredAt := 0 }

/-- Claim C4 as stated is false: in c4Store, getTopTrendingTopics 2 returns
two of the three topics of score 50; the third has a trendScore equal to
(hence at least) the score of the last returned item, yet is not included. -/
theorem getTopTrendingTopics_claim_counterexample :
    c4TopicC ∈ c4Store.trendingTopics.rows ∧
    (∀ u ∈ c4Store.getTopTrendingTopics 2,
        u.trendScore ≤ c4TopicC.trendScore) ∧
    ((c4Store.getTopTrendingTopics 2).getLast?.map TrendingTopic.trendScore
        = some c4TopicC.trendScore) ∧
    c4TopicC ∉ c4Store.getTopTrendingTopics 2 := by
  decide

/-- Claim C4, amended: the result is sorted in descending trendScore order,
and every stored topic whose trendScore is strictly greater than the
trendScore of the last returned item is included (ties at the boundary may
be cut by the slice). -/
theorem getTopTrendingTopics_sorted_complete (s : MemStorage) (n : Nat) :
    List.Sorted topicScoreDesc (s.getTopTrendingTopics n) ∧
    ∀ t ∈ s.trendingTopics.rows, ∀ u,
      (s.getTopTrendingTopics n).getLast? = some u →
      u.trendScore < t.trendScore →
      t ∈ s.getTopTrendingTopics n := by
  refine ⟨sorted_topTrending s n, ?_⟩
  intro t ht u hu hlt
  by_contra hnot
  have hts : t ∈ List.insertionSort topicScoreDesc s.trendingTopics.rows :=
    (List.perm_insertionSort topicScoreDesc s.trendingTopics.rows).mem_iff.mpr ht
  have hsplit :
      List.take n (List.insertionSort topicScoreDesc s.trendingTopics.rows) ++
        List.drop n (List.insertionSort topicScoreDesc s.trendingTopics.rows) =
        List.insertionSort topicScoreDesc s.trendingTopics.rows :=
    List.take_append_drop n _
  have hpair : List.Pairwise topicScoreDesc
      (List.take n (List.insertionSort topicScoreDesc s.trendingTopics.rows) ++
        List.drop n (List.insertionSort topicScoreDesc s.trendingTopics.rows)) := by
    rw [hsplit]; exact List.sorted_insertionSort topicScoreDesc _
  have hcross := (List.pairwise_append.mp hpair).2.2
  have humem : u ∈ List.take n (List.insertionSort topicScoreDesc s.trendingTopics.rows) :=
    List.mem_of_mem_getLast? hu
  have htd : t ∈ List.drop n (List.insertionSort topicScoreDesc s.trendingTopics.rows) := by
    rcases (List.mem_append.mp (hsplit ▸ hts)) with h1 | h2
    · exact absurd h1 hnot
    · exact h2
  have : t.trendScore ≤ u.trendScore := hcross u humem t htd
  omega

/-! ## Claim C6 -/

/-- Claim C6: the upcoming query never returns a post due at or before the
call-time clock, its result is sorted by ascending scheduledTime, and it
returns at most the requested number of posts. -/
theorem getUpcomingScheduledPosts_spec (s : MemStorage) (now : Millis) (limit : Nat) :
    (∀ p ∈ s.getUpcomingScheduledPosts now limit, now < p.scheduledTime) ∧
    List.Sorted postTimeAsc (s.getUpcomingScheduledPosts now limit) ∧
    (s.getUpcomingScheduledPosts now limit).length ≤ limit := by
  refine ⟨?_, ?_, ?_⟩
  · intro p hp
    have hmemSort : p ∈ List.insertionSort postTimeAsc
        (s.scheduledPosts.rows.filter (fun q => now < q.scheduledTime)) :=
      List.take_subset _ _ hp
    have hmemFilter : p ∈ s.scheduledPosts.rows.filter (fun q => now < q.scheduledTime) :=
      (List.perm_insertionSort postTimeAsc _).mem_iff.mp hmemSort
    have := (List.mem_filter.mp hmemFilter).2
    exact of_decide_eq_true this
  · exact List.Pairwise.sublist (List.take_sublist _ _)
      (List.sorted_insertionSort postTimeAsc _)
  · unfold MemStorage.getUpcomingScheduledPosts
    rw [List.length_take]
    exact inf_le_left

/-- Concrete witness for C6: a store holding one overdue and two future
posts, queried with limit 1 at time 100. -/
def c6Store : MemStorage :=
  { MemStorage.empty with
      scheduledPosts :=
        { nextId := 4
          rows :=
            [{ id := 1, contentId := 1, platformAccountId := 1, scheduledTime := 50,
               status := "pending", postId := none, error := none },
             { id := 2, contentId := 1, platformAccountId := 1, scheduledTime := 500,
               status := "pending", postId := none, error := none },
             { id := 3, contentId := 1, platformAccountId := 1, scheduledTime := 300,
               status := "pending", postId := none, error := none }] } }

/-- The post returned by the witness query. -/
def c6Post : ScheduledPost :=
  { id := 3, contentId := 1, platformAccountId := 1, scheduledTime := 300,
    status := "pending", postId := none, error := none }

/-- Witness for C6 at a concrete store: the single returned post is strictly
in the future and the result respects the limit. -/
theorem getUpcomingScheduledPosts_spec_witness :
    (100 : Millis) < c6Post.scheduledTime ∧
    (c6Store.getUpcomingScheduledPosts 100 1).length ≤ 1 := by
  have h := getUpcomingScheduledPosts_spec c6Store 100 1
  exact ⟨h.1 c6Post (by decide), h.2.2⟩

/-- A second concrete store for the C4 witness: two topics with distinct
scores. -/
def c4bStore : MemStorage :=
  { MemStorage.empty with
      trendingTopics :=
        { nextId := 3
          rows :=
            [{ id := 1, topic := "Low", category := "Tech", description := none,
               trendScore := 5, discoveredAt := 0 },
             { id := 2, topic := "High", category := "Tech", description := none,
               trendScore := 9, discoveredAt := 0 }] } }

/-- The higher scored topic of c4bStore. -/
def c4bHigh : TrendingTopic :=
  { id := 2, topic := "High", category := "Tech", description := none,
    trendScore := 9, discoveredAt := 0 }

/-- The lower scored topic of c4bStore. -/
def c4bLow : TrendingTopic :=
  { id := 1, topic := "Low", category := "Tech", description := none,
    trendScore := 5, discoveredAt := 0 }

/-- Witness for the amended C4 theorem at a concrete store: the strictly
higher scored topic is included in the top-2 result. -/
theorem getTopTrendingTopics_sorted_complete_witness :
    c4bHigh ∈ c4bStore.getTopTrendingTopics 2 := by
  have h := getTopTrendingTopics_sorted_complete c4bStore 2
  exact h.2 c4bHigh (by decide) c4bLow (by decide) (by decide)

/-! ## Claim C5: id assignment

All eight create methods follow the `Table.createRow` pattern, so the id
facts are proved once over it and instantiated per entity type. -/

/-- Well-formedness of one map: every live row has an id below the counter
and the live ids are pairwise distinct.  This holds for the freshly
constructed store and, as proved below, is preserved by creation. -/
def Table.WF {E : Type} (t : Table E) (getId : E → Nat) : Prop :=
  (∀ e ∈ t.rows, getId e < t.nextId) ∧ (t.rows.map getId).Nodup

instance {E : Type} (t : Table E) (getId : E → Nat) : Decidable (t.WF getId) := by
  unfold Table.WF; infer_instance

/-- A sequence of creations against one table. -/
def Table.runCreates {E : Type} : Table E → List (Nat → E) → List E × Table E
  | t, [] => ([], t)
  | t, f :: rest =>
    let p := t.createRow f
    let q := Table.runCreates p.2 rest
    (p.1 :: q.1, q.2)

/-- The ids returned by a sequence of creations are the consecutive counter
values. -/
lemma Table.runCreates_ids {E : Type} (getId : E → Nat) (t : Table E)
    (mks : List (Nat → E)) (hid : ∀ mk ∈ mks, ∀ n, getId (mk n) = n) :
    ((t.runCreates mks).1.map getId) = List.range' t.nextId mks.length := by
  induction mks generalizing t with
  | nil => simp [Table.runCreates]
  | cons mk rest ih =>
    have h1 : getId (mk t.nextId) = t.nextId := hid mk (List.mem_cons_self _ _) _
    have h2 : ∀ f ∈ rest, ∀ n, getId (f n) = n :=
      fun f hf => hid f (List.mem_cons_of_mem _ hf)
    simp only [Table.runCreates, Table.createRow, List.map_cons, List.length_cons,
      List.range'_succ, h1]
    rw [ih _ h2]

/-- Creation preserves well-formedness. -/
lemma Table.createRow_wf {E : Type} (getId : E → Nat) (t : Table E) (mk : Nat → E)
    (hmk : getId (mk t.nextId) = t.nextId) (h : t.WF getId) :
    (t.createRow mk).2.WF getId := by
  obtain ⟨hb, hn⟩ := h
  constructor
  · intro e he
    simp only [Table.createRow, List.mem_append, List.mem_singleton] at he
    simp only [Table.createRow]
    rcases he with he | he
    · exact lt_trans (hb e he) (Nat.lt_succ_self _)
    · subst he; rw [hmk]; exact Nat.lt_succ_self _
  · simp only [Table.createRow, List.map_append, List.map_cons, List.map_nil, hmk]
    rw [List.nodup_append]
    refine ⟨hn, List.nodup_singleton _, ?_⟩
    intro x hx hx1
    simp only [List.mem_singleton] at hx1
    subst hx1
    obtain ⟨e, he, hge⟩ := List.mem_map.mp hx
    have := hb e he
    omega

/-- A sequence of creations preserves well-formedness. -/
lemma Table.runCreates_wf {E : Type} (getId : E → Nat) (t : Table E)
    (mks : List (Nat → E)) (hid : ∀ mk ∈ mks, ∀ n, getId (mk n) = n)
    (h : t.WF getId) : ((t.runCreates mks).2).WF getId := by
  induction mks generalizing t with
  | nil => exact h
  | cons mk rest ih =>
    exact ih _ (fun f hf => hid f (List.mem_cons_of_mem _ hf))
      (Table.createRow_wf getId t mk (hid mk (List.mem_cons_self _ _) _) h)

/-- Combined id specification for a sequence of creations: the returned ids
are strictly increasing in call order, and after every prefix the live ids
remain pairwise distinct. -/
lemma Table.runCreates_spec {E : Type} (getId : E → Nat) (t : Table E)
    (mks : List (Nat → E)) (hid : ∀ mk ∈ mks, ∀ n, getId (mk n) = n)
    (hwf : t.WF getId) :
    List.Pairwise (fun a b => getId a < getId b) (t.runCreates mks).1 ∧
    ∀ k, (((t.runCreates (mks.take k)).2.rows.map getId).Nodup) := by
  constructor
  · have hids := Table.runCreates_ids getId t mks hid
    have hlt : List.Pairwise (fun a b : Nat => a < b)
        (((t.runCreates mks).1).map getId) := by
      rw [hids]; exact List.pairwise_lt_range' _ _
    exact (List.pairwise_map.mp hlt)
  · intro k
    have hidk : ∀ mk ∈ mks.take k, ∀ n, getId (mk n) = n :=
      fun mk hmk => hid mk (List.take_subset _ _ hmk)
    exact (Table.runCreates_wf getId t (mks.take k) hidk hwf).2

/-- A sequence of createUser calls. -/
def MemStorage.runCreateUsers (s : MemStorage) :
    List InsertUser → List User × MemStorage
  | [] => ([], s)
  | i :: rest =>
    let p := s.createUser i
    let q := p.2.runCreateUsers rest
    (p.1 :: q.1, q.2)

/-- The user fold projects to the generic table fold. -/
lemma runCreateUsers_eq (s : MemStorage) (inputs : List InsertUser) :
    (s.runCreateUsers inputs).1 =
      (s.users.runCreates (inputs.map userRow)).1 ∧
    (s.runCreateUsers inputs).2.users =
      (s.users.runCreates (inputs.map userRow)).2 := by
  induction inputs generalizing s with
  | nil => exact ⟨rfl, rfl⟩
  | cons i rest ih =>
    simp only [MemStorage.runCreateUsers, MemStorage.createUser, List.map_cons,
      Table.runCreates]
    exact ⟨by rw [(ih _).1], by rw [(ih _).2]⟩

/-- A sequence of createContent calls, each with its call-time clock. -/
def MemStorage.runCreateContents (s : MemStorage) :
    List (Millis × InsertContent) → List Content × MemStorage
  | [] => ([], s)
  | i :: rest =>
    let p := s.createContent i.1 i.2
    let q := p.2.runCreateContents rest
    (p.1 :: q.1, q.2)

/-- The content fold projects to the generic table fold. -/
lemma runCreateContents_eq (s : MemStorage) (inputs : List (Millis × InsertContent)) :
    (s.runCreateContents inputs).1 =
      (s.contents.runCreates (inputs.map (fun i => contentRow i.1 i.2))).1 ∧
    (s.runCreateContents inputs).2.contents =
      (s.contents.runCreates (inputs.map (fun i => contentRow i.1 i.2))).2 := by
  induction inputs generalizing s with
  | nil => exact ⟨rfl, rfl⟩
  | cons i rest ih =>
    simp only [MemStorage.runCreateContents, MemStorage.createContent, List.map_cons,
      Table.runCreates]
    exact ⟨by rw [(ih _).1], by rw [(ih _).2]⟩

/-- A sequence of createScript calls. -/
def MemStorage.runCreateScripts (s : MemStorage) :
    List (Millis × InsertScript) → List Script × MemStorage
  | [] => ([], s)
  | i :: rest =>
    let p := s.createScript i.1 i.2
    let q := p.2.runCreateScripts rest
    (p.1 :: q.1, q.2)

/-- The script fold projects to the generic table fold. -/
lemma runCreateScripts_eq (s : MemStorage) (inputs : List (Millis × InsertScript)) :
    (s.runCreateScripts inputs).1 =
      (s.scripts.runCreates (inputs.map (fun i => scriptRow i.1 i.2))).1 ∧
    (s.runCreateScripts inputs).2.scripts =
      (s.scripts.runCreates (inputs.map (fun i => scriptRow i.1 i.2))).2 := by
  induction inputs generalizing s with
  | nil => exact ⟨rfl, rfl⟩
  | cons i rest ih =>
    simp only [MemStorage.runCreateScripts, MemStorage.createScript, List.map_cons,
      Table.runCreates]
    exact ⟨by rw [(ih _).1], by rw [(ih _).2]⟩

/-- A sequence of createAiConfig calls. -/
def MemStorage.runCreateAiConfigs (s : MemStorage) :
    List (Millis × InsertAiConfig) → List AiConfig × MemStorage
  | [] => ([], s)
  | i :: rest =>
    let p := s.createAiConfig i.1 i.2
    let q := p.2.runCreateAiConfigs rest
    (p.1 :: q.1, q.2)

/-- The AI config fold projects to the generic table fold. -/
lemma runCreateAiConfigs_eq (s : MemStorage) (inputs : List (Millis × InsertAiConfig)) :
    (s.runCreateAiConfigs inputs).1 =
      (s.aiConfigs.runCreates (inputs.map (fun i => aiConfigRow i.1 i.2))).1 ∧
    (s.runCreateAiConfigs inputs).2.aiConfigs =
      (s.aiConfigs.runCreates (inputs.map (fun i => aiConfigRow i.1 i.2))).2 := by
  induction inputs generalizing s with
  | nil => exact ⟨rfl, rfl⟩
  | cons i rest ih =>
    simp only [MemStorage.runCreateAiConfigs, MemStorage.createAiConfig, List.map_cons,
      Table.runCreates]
    exact ⟨by rw [(ih _).1], by rw [(ih _).2]⟩

/-- A sequence of createPlatform calls. -/
def MemStorage.runCreatePlatforms (s : MemStorage) :
    List InsertPlatform → List Platform × MemStorage
  | [] => ([], s)
  | i :: rest =>
    let p := s.createPlatform i
    let q := p.2.runCreatePlatforms rest
    (p.1 :: q.1, q.2)

/-- The platform fold projects to the generic table fold. -/
lemma runCreatePlatforms_eq (s : MemStorage) (inputs : List InsertPlatform) :
    (s.runCreatePlatforms inputs).1 =
      (s.platforms.runCreates (inputs.map platformRow)).1 ∧
    (s.runCreatePlatforms inputs).2.platforms =
      (s.platforms.runCreates (inputs.map platformRow)).2 := by
  induction inputs generalizing s with
  | nil => exact ⟨rfl, rfl⟩
  | cons i rest ih =>
    simp only [MemStorage.runCreatePlatforms, MemStorage.createPlatform, List.map_cons,
      Table.runCreates]
    exact ⟨by rw [(ih _).1], by rw [(ih _).2]⟩

/-- A sequence of createPlatformAccount calls. -/
def MemStorage.runCreatePlatformAccounts (s : MemStorage) :
    List InsertPlatformAccount → List PlatformAccount × MemStorage
  | [] => ([], s)
  | i :: rest =>
    let p := s.createPlatformAccount i
    let q := p.2.runCreatePlatformAccounts rest
    (p.1 :: q.1, q.2)

/-- The platform account fold projects to the generic table fold. -/
lemma runCreatePlatformAccounts_eq (s : MemStorage)
    (inputs : List InsertPlatformAccount) :
    (s.runCreatePlatformAccounts inputs).1 =
      (s.platformAccounts.runCreates (inputs.map platformAccountRow)).1 ∧
    (s.runCreatePlatformAccounts inputs).2.platformAccounts =
      (s.platformAccounts.runCreates (inputs.map platformAccountRow)).2 := by
  induction inputs generalizing s with
  | nil => exact ⟨rfl, rfl⟩
  | cons i rest ih =>
    simp only [MemStorage.runCreatePlatformAccounts, MemStorage.createPlatformAccount,
      List.map_cons, Table.runCreates]
    exact ⟨by rw [(ih _).1], by rw [(ih _).2]⟩

/-- A sequence of createScheduledPost calls. -/
def MemStorage.runCreateScheduledPosts (s : MemStorage) :
    List InsertScheduledPost → List ScheduledPost × MemStorage
  | [] => ([], s)
  | i :: rest =>
    let p := s.createScheduledPost i
    let q := p.2.runCreateScheduledPosts rest
    (p.1 :: q.1, q.2)

/-- The scheduled post fold projects to the generic table fold. -/
lemma runCreateScheduledPosts_eq (s : MemStorage)
    (inputs : List InsertScheduledPost) :
    (s.runCreateScheduledPosts inputs).1 =
      (s.scheduledPosts.runCreates (inputs.map scheduledPostRow)).1 ∧
    (s.runCreateScheduledPosts inputs).2.scheduledPosts =
      (s.scheduledPosts.runCreates (inputs.map scheduledPostRow)).2 := by
  induction inputs generalizing s with
  | nil => exact ⟨rfl, rfl⟩
  | cons i rest ih =>
    simp only [MemStorage.runCreateScheduledPosts, MemStorage.createScheduledPost,
      List.map_cons, Table.runCreates]
    exact ⟨by rw [(ih _).1], by rw [(ih _).2]⟩

/-- A sequence of createTrendingTopic calls. -/
def MemStorage.runCreateTrendingTopics (s : MemStorage) :
    List (Millis × InsertTrendingTopic) → List TrendingTopic × MemStorage
  | [] => ([], s)
  | i :: rest =>
    let p := s.createTrendingTopic i.1 i.2
    let q := p.2.runCreateTrendingTopics rest
    (p.1 :: q.1, q.2)

/-- The trending topic fold projects to the generic table fold. -/
lemma runCreateTrendingTopics_eq (s : MemStorage)
    (inputs : List (Millis × InsertTrendingTopic)) :
    (s.runCreateTrendingTopics inputs).1 =
      (s.trendingTopics.runCreates (inputs.map (fun i => trendingTopicRow i.1 i.2))).1 ∧
    (s.runCreateTrendingTopics inputs).2.trendingTopics =
      (s.trendingTopics.runCreates (inputs.map (fun i => trendingTopicRow i.1 i.2))).2 := by
  induction inputs generalizing s with
  | nil => exact ⟨rfl, rfl⟩
  | cons i rest ih =>
    simp only [MemStorage.runCreateTrendingTopics, MemStorage.createTrendingTopic,
      List.map_cons, Table.runCreates]
    exact ⟨by rw [(ih _).1], by rw [(ih _).2]⟩

/-- Claim C5: for each of the eight entity types, any sequence of create
calls starting from a well formed store returns records with strictly
increasing ids, and after every prefix of the sequence the live rows of that
type still have pairwise distinct ids. -/
theorem create_ids_strictly_increasing_unique :
    (∀ (s : MemStorage) (inputs : List InsertUser), s.users.WF User.id →
      List.Pairwise (fun a b => a.id < b.id) (s.runCreateUsers inputs).1 ∧
      ∀ k, (((s.runCreateUsers (inputs.take k)).2.users.rows.map User.id).Nodup)) ∧
    (∀ (s : MemStorage) (inputs : List (Millis × InsertScript)), s.scripts.WF Script.id →
      List.Pairwise (fun a b => a.id < b.id) (s.runCreateScripts inputs).1 ∧
      ∀ k, (((s.runCreateScripts (inputs.take k)).2.scripts.rows.map Script.id).Nodup)) ∧
    (∀ (s : MemStorage) (inputs : List (Millis × InsertAiConfig)), s.aiConfigs.WF AiConfig.id →
      List.Pairwise (fun a b => a.id < b.id) (s.runCreateAiConfigs inputs).1 ∧
      ∀ k, (((s.runCreateAiConfigs (inputs.take k)).2.aiConfigs.rows.map AiConfig.id).Nodup)) ∧
    (∀ (s : MemStorage) (inputs : List InsertPlatform), s.platforms.WF Platform.id →
      List.Pairwise (fun a b => a.id < b.id) (s.runCreatePlatforms inputs).1 ∧
      ∀ k, (((s.runCreatePlatforms (inputs.take k)).2.platforms.rows.map Platform.id).Nodup)) ∧
    (∀ (s : MemStorage) (inputs : List InsertPlatformAccount),
        s.platformAccounts.WF PlatformAccount.id →
      List.Pairwise (fun a b => a.id < b.id) (s.runCreatePlatformAccounts inputs).1 ∧
      ∀ k, (((s.runCreatePlatformAccounts (inputs.take k)).2.platformAccounts.rows.map
        PlatformAccount.id).Nodup)) ∧
    (∀ (s : MemStorage) (inputs : List (Millis × InsertContent)), s.contents.WF Content.id →
      List.Pairwise (fun a b => a.id < b.id) (s.runCreateContents inputs).1 ∧
      ∀ k, (((s.runCreateContents (inputs.take k)).2.contents.rows.map Content.id).Nodup)) ∧
    (∀ (s : MemStorage) (inputs : List InsertScheduledPost),
        s.scheduledPosts.WF ScheduledPost.id →
      List.Pairwise (fun a b => a.id < b.id) (s.runCreateScheduledPosts inputs).1 ∧
      ∀ k, (((s.runCreateScheduledPosts (inputs.take k)).2.scheduledPosts.rows.map
        ScheduledPost.id).Nodup)) ∧
    (∀ (s : MemStorage) (inputs : List (Millis × InsertTrendingTopic)),
        s.trendingTopics.WF TrendingTopic.id →
      List.Pairwise (fun a b => a.id < b.id) (s.runCreateTrendingTopics inputs).1 ∧
      ∀ k, (((s.runCreateTrendingTopics (inputs.take k)).2.trendingTopics.rows.map
        TrendingTopic.id).Nodup)) := by
  refine ⟨?_, ?_, ?_, ?_, ?_, ?_, ?_, ?_⟩
  · intro s inputs hwf
    have hid : ∀ f ∈ inputs.map userRow, ∀ n, User.id (f n) = n := by
      intro f hf n
      obtain ⟨i, _, rfl⟩ := List.mem_map.mp hf
      rfl
    have hspec := Table.runCreates_spec User.id s.users (inputs.map userRow) hid hwf
    refine ⟨?_, ?_⟩
    · rw [(runCreateUsers_eq s inputs).1]; exact hspec.1
    · intro k
      rw [(runCreateUsers_eq s (inputs.take k)).2, List.map_take]
      exact hspec.2 k
  · intro s inputs hwf
    have hid : ∀ f ∈ inputs.map (fun i => scriptRow i.1 i.2), ∀ n, Script.id (f n) = n := by
      intro f hf n
      obtain ⟨i, _, rfl⟩ := List.mem_map.mp hf
      rfl
    have hspec := Table.runCreates_spec Script.id s.scripts
      (inputs.map (fun i => scriptRow i.1 i.2)) hid hwf
    refine ⟨?_, ?_⟩
    · rw [(runCreateScripts_eq s inputs).1]; exact hspec.1
    · intro k
      rw [(runCreateScripts_eq s (inputs.take k)).2, List.map_take]
      exact hspec.2 k
  · intro s inputs hwf
    have hid : ∀ f ∈ inputs.map (fun i => aiConfigRow i.1 i.2), ∀ n, AiConfig.id (f n) = n := by
      intro f hf n
      obtain ⟨i, _, rfl⟩ := List.mem_map.mp hf
      rfl
    have hspec := Table.runCreates_spec AiConfig.id s.aiConfigs
      (inputs.map (fun i => aiConfigRow i.1 i.2)) hid hwf
    refine ⟨?_, ?_⟩
    · rw [(runCreateAiConfigs_eq s inputs).1]; exact hspec.1
    · intro k
      rw [(runCreateAiConfigs_eq s (inputs.take k)).2, List.map_take]
      exact hspec.2 k
  · intro s inputs hwf
    have hid : ∀ f ∈ inputs.map platformRow, ∀ n, Platform.id (f n) = n := by
      intro f hf n
      obtain ⟨i, _, rfl⟩ := List.mem_map.mp hf
      rfl
    have hspec := Table.runCreates_spec Platform.id s.platforms
      (inputs.map platformRow) hid hwf
    refine ⟨?_, ?_⟩
    · rw [(runCreatePlatforms_eq s inputs).1]; exact hspec.1
    · intro k
      rw [(runCreatePlatforms_eq s (inputs.take k)).2, List.map_take]
      exact hspec.2 k
  · intro s inputs hwf
    have hid : ∀ f ∈ inputs.map platformAccountRow, ∀ n, PlatformAccount.id (f n) = n := by
      intro f hf n
      obtain ⟨i, _, rfl⟩ := List.mem_map.mp hf
      rfl
    have hspec := Table.runCreates_spec PlatformAccount.id s.platformAccounts
      (inputs.map platformAccountRow) hid hwf
    refine ⟨?_, ?_⟩
    · rw [(runCreatePlatformAccounts_eq s inputs).1]; exact hspec.1
    · intro k
      rw [(runCreatePlatformAccounts_eq s (inputs.take k)).2, List.map_take]
      exact hspec.2 k
  · intro s inputs hwf
    have hid : ∀ f ∈ inputs.map (fun i => contentRow i.1 i.2), ∀ n, Content.id (f n) = n := by
      intro f hf n
      obtain ⟨i, _, rfl⟩ := List.mem_map.mp hf
      rfl
    have hspec := Table.runCreates_spec Content.id s.contents
      (inputs.map (fun i => contentRow i.1 i.2)) hid hwf
    refine ⟨?_, ?_⟩
    · rw [(runCreateContents_eq s inputs).1]; exact hspec.1
    · intro k
      rw [(runCreateContents_eq s (inputs.take k)).2, List.map_take]
      exact hspec.2 k
  · intro s inputs hwf
    have hid : ∀ f ∈ inputs.map scheduledPostRow, ∀ n, ScheduledPost.id (f n) = n := by
      intro f hf n
      obtain ⟨i, _, rfl⟩ := List.mem_map.mp hf
      rfl
    have hspec := Table.runCreates_spec ScheduledPost.id s.scheduledPosts
      (inputs.map scheduledPostRow) hid hwf
    refine ⟨?_, ?_⟩
    · rw [(runCreateScheduledPosts_eq s inputs).1]; exact hspec.1
    · intro k
      rw [(runCreateScheduledPosts_eq s (inputs.take k)).2, List.map_take]
      exact hspec.2 k
  · intro s inputs hwf
    have hid : ∀ f ∈ inputs.map (fun i => trendingTopicRow i.1 i.2), ∀ n,
        TrendingTopic.id (f n) = n := by
      intro f hf n
      obtain ⟨i, _, rfl⟩ := List.mem_map.mp hf
      rfl
    have hspec := Table.runCreates_spec TrendingTopic.id s.trendingTopics
      (inputs.map (fun i => trendingTopicRow i.1 i.2)) hid hwf
    refine ⟨?_, ?_⟩
    · rw [(runCreateTrendingTopics_eq s inputs).1]; exact hspec.1
    · intro k
      rw [(runCreateTrendingTopics_eq s (inputs.take k)).2, List.map_take]
      exact hspec.2 k

/-- Witness for C5: two creations of every type against the fresh store,
each yielding strictly increasing ids and distinct live ids. -/
theorem create_ids_strictly_increasing_unique_witness :
    (List.Pairwise (fun a b : User => a.id < b.id)
      (MemStorage.empty.runCreateUsers
        [{ username := "a", password := "p" }, { username := "b", password := "q" }]).1) ∧
    (List.Pairwise (fun a b : Script => a.id < b.id)
      (MemStorage.empty.runCreateScripts
        [(0, { title := "t", topic := "x", format := "video", content := "c" }),
         (1, { title := "u", topic := "y", format := "short", content := "d" })]).1) ∧
    (List.Pairwise (fun a b : AiConfig => a.id < b.id)
      (MemStorage.empty.runCreateAiConfigs
        [(0, { name := "m", modelType := "llm", modelName := "llama3" }),
         (1, { name := "n", modelType := "tts", modelName := "voice" })]).1) ∧
    (List.Pairwise (fun a b : Platform => a.id < b.id)
      (MemStorage.empty.runCreatePlatforms
        [{ name := "YouTube", icon := "yt" }, { name := "Twitter", icon := "tw" }]).1) ∧
    (List.Pairwise (fun a b : PlatformAccount => a.id < b.id)
      (MemStorage.empty.runCreatePlatformAccounts
        [{ platformId := 1, name := "acc1", username := "u1" },
         { platformId := 1, name := "acc2", username := "u2" }]).1) ∧
    (List.Pairwise (fun a b : Content => a.id < b.id)
      (MemStorage.empty.runCreateContents
        [(0, { title := "c1", contentType := "text" }),
         (1, { title := "c2", contentType := "image" })]).1) ∧
    (List.Pairwise (fun a b : ScheduledPost => a.id < b.id)
      (MemStorage.empty.runCreateScheduledPosts
        [{ contentId := 1, platformAccountId := 1, scheduledTime := 10 },
         { contentId := 1, platformAccountId := 1, scheduledTime := 20 }]).1) ∧
    (List.Pairwise (fun a b : TrendingTopic => a.id < b.id)
      (MemStorage.empty.runCreateTrendingTopics
        [(0, { topic := "T1", category := "Tech", trendScore := 10 }),
         (1, { topic := "T2", category := "Tech", trendScore := 20 })]).1) ∧
    (((MemStorage.empty.runCreateTrendingTopics
        ([(0, { topic := "T1", category := "Tech", trendScore := 10 }),
          (1, { topic := "T2", category := "Tech", trendScore := 20 })].take 2)).2.trendingTopics.rows.map
        TrendingTopic.id).Nodup) := by
  have h := create_ids_strictly_increasing_unique
  exact ⟨(h.1 MemStorage.empty _ (by decide)).1,
    (h.2.1 MemStorage.empty _ (by decide)).1,
    (h.2.2.1 MemStorage.empty _ (by decide)).1,
    (h.2.2.2.1 MemStorage.empty _ (by decide)).1,
    (h.2.2.2.2.1 MemStorage.empty _ (by decide)).1,
    (h.2.2.2.2.2.1 MemStorage.empty _ (by decide)).1,
    (h.2.2.2.2.2.2.1 MemStorage.empty _ (by decide)).1,
    (h.2.2.2.2.2.2.2 MemStorage.empty _ (by decide)).1,
    (h.2.2.2.2.2.2.2 MemStorage.empty _ (by decide)).2 2⟩

/-! ## Lemmas about the create-content pipeline -/

/-- A 201 body produced by any branch carries the resolved topic. -/
lemma dispatchByType_ok_topic (env : AutomationEnv) (req : CreateContentRequest)
    (topic : TrendingTopic) (b : CreateContentOk) (env2 : AutomationEnv)
    (h : dispatchByType env req topic = (.ok b, env2)) : b.topic = topic := by
  unfold dispatchByType createContentVideoBranch createContentImageBranch
    createContentTextBranch at h
  dsimp only at h
  split at h
  · split at h
    · simp at h
    · simp only [Prod.mk.injEq, CreateContentResult.ok.injEq] at h
      obtain ⟨hb, -⟩ := h
      subst hb
      rfl
  · split at h
    · split at h
      · simp at h
      · simp only [Prod.mk.injEq, CreateContentResult.ok.injEq] at h
        obtain ⟨hb, -⟩ := h
        subst hb
        rfl
    · simp only [Prod.mk.injEq, CreateContentResult.ok.injEq] at h
      obtain ⟨hb, -⟩ := h
      subst hb
      rfl

/-! ## Claim C1 -/

/-- Claim C1: with no (truthy) topicId, the pipeline fails with the
"No trending topics available" not-found outcome and leaves the whole
environment untouched when no topics are stored; when it answers 201, the
topic it generated from is a stored topic of maximal trendScore. -/
theorem automation_topic_fallback (env : AutomationEnv) (req : CreateContentRequest)
    (h : natTruthy req.topicId = false) :
    (env.storage.trendingTopics.rows = [] →
      createContentHandler env req = (.notFound "No trending topics available", env)) ∧
    (∀ b env2, createContentHandler env req = (.ok b, env2) →
      b.topic ∈ env.storage.trendingTopics.rows ∧
      ∀ u ∈ env.storage.trendingTopics.rows, u.trendScore ≤ b.topic.trendScore) := by
  constructor
  · intro hrows
    unfold createContentHandler
    rw [h]
    simp only [Bool.false_eq_true, if_false]
    rw [(topTrending_one_nil_iff env.storage).mpr hrows]
  · intro b env2 hrun
    unfold createContentHandler at hrun
    rw [h] at hrun
    simp only [Bool.false_eq_true, if_false] at hrun
    cases hg : env.storage.getTopTrendingTopics 1 with
    | nil => rw [hg] at hrun; simp at hrun
    | cons t rest =>
      rw [hg] at hrun
      have hbt : b.topic = t := dispatchByType_ok_topic env req t b env2 hrun
      have hmax := topTrending_head_max env.storage t rest hg
      rw [hbt]
      exact hmax

/-- Placeholder body used only to give total extraction functions a value in
the impossible branch. -/
def fallbackOkBody : CreateContentOk :=
  { topic := { id := 0, topic := "", category := "", description := none,
               trendScore := 0, discoveredAt := 0 }
    content := { id := 0, title := "", description := none, contentType := "",
                 status := "", filePath := none, thumbnailPath := none,
                 metadata := none, createdAt := 0 } }

/-- An automation environment over a given store with the initial generator
singletons, a fixed clock and fixed generator oracle strings. -/
def baseEnv (s : MemStorage) : AutomationEnv :=
  { storage := s
    tts := TTSState.initial
    imageGen := ImageGenState.initial
    videoGen := VideoGenState.initial
    now := 1000
    scriptText := "hello world"
    postText := "nice post" }

/-- The single stored topic of the C1 witness store. -/
def c1Topic : TrendingTopic :=
  { id := 1, topic := "AI", category := "Tech", description := none,
    trendScore := 42, discoveredAt := 0 }

/-- Witness store with one trending topic. -/
def c1Store : MemStorage :=
  { MemStorage.empty with trendingTopics := { nextId := 2, rows := [c1Topic] } }

/-- Witness request: text content, no topicId. -/
def c1Req : CreateContentRequest := { contentType := some "text" }

/-- The witness run against the one-topic store. -/
def c1Run : CreateContentResult × AutomationEnv :=
  createContentHandler (baseEnv c1Store) c1Req

/-- The 201 body of the witness run. -/
def c1Body : CreateContentOk :=
  match c1Run.1 with
  | .ok b => b
  | _ => fallbackOkBody

/-- Witness for C1: with no topics the call returns the not-found outcome and
leaves the environment unchanged; with one topic of score 42 the 201 body
carries a stored topic of maximal score. -/
theorem automation_topic_fallback_witness :
    (createContentHandler (baseEnv MemStorage.empty) c1Req =
      (.notFound "No trending topics available", baseEnv MemStorage.empty)) ∧
    c1Body.topic ∈ (baseEnv c1Store).storage.trendingTopics.rows := by
  constructor
  · exact (automation_topic_fallback (baseEnv MemStorage.empty) c1Req rfl).1 rfl
  · exact ((automation_topic_fallback (baseEnv c1Store) c1Req rfl).2 c1Body c1Run.2
      (by rfl)).1

/-! ## Claim C2 -/

/-- A string of length zero is the empty string. -/
lemma string_length_zero (a : String) (h : a.length = 0) : a = "" := by
  cases a with
  | mk l =>
    cases l with
    | nil => rfl
    | cons c cs => simp [String.length] at h

/-- Appending to a nonempty string stays nonempty. -/
lemma isEmpty_append_left (a b : String) (ha : a.isEmpty = false) :
    (a ++ b).isEmpty = false := by
  rw [Bool.eq_false_iff]
  intro h
  rw [String.isEmpty_iff] at h
  have hl := congrArg String.length h
  simp only [String.length_append, String.length_empty, Nat.add_eq_zero] at hl
  rw [Bool.eq_false_iff, Ne, String.isEmpty_iff] at ha
  exact ha (string_length_zero a hl.1)

/-- The `x || null` embedding keeps a path built on a nonempty directory. -/
lemma strOrNull_some_append (a b : String) (ha : a.isEmpty = false) :
    strOrNull (some (a ++ b)) = some (a ++ b) := by
  simp [strOrNull, isEmpty_append_left a b ha]

/-- The scheduling step never touches the scripts or contents maps. -/
lemma scheduleStep_preserves (s : MemStorage) (req : CreateContentRequest)
    (cid : Nat) (now : Millis) :
    (scheduleStep s req cid now).2.scripts = s.scripts ∧
    (scheduleStep s req cid now).2.contents = s.contents := by
  unfold scheduleStep
  split
  · split
    · exact ⟨rfl, rfl⟩
    · exact ⟨rfl, rfl⟩
  · exact ⟨rfl, rfl⟩

/-- A successful image generation returns a path inside the image output
directory. -/
lemma generateImage_ok_path (st : ImageGenState) (now : Millis)
    (params : ImageGenParams) (res : ImageResult) (st2 : ImageGenState)
    (h : generateImage st now params = (.ok res, st2)) :
    ∃ tail, res.imagePath = "/content/images/" ++ tail := by
  unfold generateImage at h
  dsimp only at h
  split at h
  · simp at h
  · simp only [Prod.mk.injEq, Except.ok.injEq] at h
    obtain ⟨hr, -⟩ := h
    subst hr
    exact ⟨_, rfl⟩

/-- Branch level content facts behind claim C2. -/
lemma dispatchByType_ok_content (env : AutomationEnv) (req : CreateContentRequest)
    (topic : TrendingTopic) (b : CreateContentOk) (env2 : AutomationEnv)
    (h : dispatchByType env req topic = (.ok b, env2)) :
    (effectiveContentType req = "text" →
        b.content.contentType = "text" ∧ b.content.filePath = none ∧
        b.content ∈ env2.storage.contents.rows) ∧
    (effectiveContentType req = "image" →
        ∃ p, b.content.filePath = some p ∧ b.content.thumbnailPath = some p ∧
          b.content ∈ env2.storage.contents.rows) ∧
    (effectiveContentType req = "video" →
        ∃ sc, b.script = some sc ∧ sc ∈ env2.storage.scripts.rows ∧
          b.content ∈ env2.storage.contents.rows ∧
          ∃ md, b.content.metadata = some md ∧
            md.lookupKey "scriptId" = some (.num (sc.id : Rat))) := by
  unfold dispatchByType createContentVideoBranch createContentImageBranch
    createContentTextBranch at h
  dsimp only at h
  split at h
  case isTrue hcv =>
    split at h
    · simp at h
    case h_2 videoResult states heq =>
      simp only [Prod.mk.injEq, CreateContentResult.ok.injEq] at h
      obtain ⟨hb, henv⟩ := h
      subst hb
      subst henv
      refine ⟨?_, ?_, ?_⟩
      · intro hct; rw [hcv] at hct; simp at hct
      · intro hct; rw [hcv] at hct; simp at hct
      · intro _
        refine ⟨_, rfl, ?_, ?_, ?_⟩
        · simp only [(scheduleStep_preserves _ _ _ _).1, MemStorage.createContent,
            MemStorage.createScript, Table.createRow]
          simp
        · simp only [(scheduleStep_preserves _ _ _ _).2, MemStorage.createContent,
            MemStorage.createScript, Table.createRow]
          simp
        · exact ⟨_, rfl, rfl⟩
  case isFalse hncv =>
    split at h
    case isTrue hci =>
      split at h
      · simp at h
      case h_2 image img1 heq =>
        simp only [Prod.mk.injEq, CreateContentResult.ok.injEq] at h
        obtain ⟨hb, henv⟩ := h
        subst hb
        subst henv
        refine ⟨?_, ?_, ?_⟩
        · intro hct; rw [hci] at hct; simp at hct
        · intro _
          obtain ⟨tail, hpath⟩ := generateImage_ok_path _ _ _ _ _ heq
          refine ⟨image.imagePath, ?_, ?_, ?_⟩
          · simp only [MemStorage.createContent, Table.createRow, contentRow]
            rw [hpath]
            exact strOrNull_some_append "/content/images/" _ rfl
          · simp only [MemStorage.createContent, Table.createRow, contentRow]
            rw [hpath]
            exact strOrNull_some_append "/content/images/" _ rfl
          · simp only [(scheduleStep_preserves _ _ _ _).2, MemStorage.createContent,
              Table.createRow]
            simp
        · intro hct; rw [hct] at hci; simp at hci
    case isFalse hnci =>
      simp only [Prod.mk.injEq, CreateContentResult.ok.injEq] at h
      obtain ⟨hb, henv⟩ := h
      subst hb
      subst henv
      refine ⟨?_, ?_, ?_⟩
      · intro _
        refine ⟨rfl, rfl, ?_⟩
        simp only [(scheduleStep_preserves _ _ _ _).2, MemStorage.createContent,
          Table.createRow]
        simp
      · intro hct; exact absurd hct hnci
      · intro hct; exact absurd hct hncv

/-- A 201 outcome of the handler always comes from the dispatch on some
resolved topic. -/
lemma handler_ok_dispatch (env : AutomationEnv) (req : CreateContentRequest)
    (b : CreateContentOk) (env2 : AutomationEnv)
    (h : createContentHandler env req = (.ok b, env2)) :
    ∃ topic, dispatchByType env req topic = (.ok b, env2) := by
  unfold createContentHandler at h
  split at h
  · split at h
    · simp at h
    · exact ⟨_, h⟩
  · split at h
    · simp at h
    · exact ⟨_, h⟩

/-- Claim C2: on a 201 answer, a text run stores a Content with
contentType "text" and a null filePath; an image run stores a Content whose
filePath is non-null and equal to its thumbnailPath; a video run creates
both a Script and a Content whose metadata.scriptId is the id of that
Script. -/
theorem automation_content_type_fields (env : AutomationEnv)
    (req : CreateContentRequest) (b : CreateContentOk) (env2 : AutomationEnv)
    (h : createContentHandler env req = (.ok b, env2)) :
    (effectiveContentType req = "text" →
        b.content.contentType = "text" ∧ b.content.filePath = none ∧
        b.content ∈ env2.storage.contents.rows) ∧
    (effectiveContentType req = "image" →
        ∃ p, b.content.filePath = some p ∧ b.content.thumbnailPath = some p ∧
          b.content ∈ env2.storage.contents.rows) ∧
    (effectiveContentType req = "video" →
        ∃ sc, b.script = some sc ∧ sc ∈ env2.storage.scripts.rows ∧
          b.content ∈ env2.storage.contents.rows ∧
          ∃ md, b.content.metadata = some md ∧
            md.lookupKey "scriptId" = some (.num (sc.id : Rat))) := by
  obtain ⟨topic, hd⟩ := handler_ok_dispatch env req b env2 h
  exact dispatchByType_ok_content env req topic b env2 hd

/-- Witness request for the image branch. -/
def c2ImageReq : CreateContentRequest := { contentType := some "image" }

/-- Witness request for the video branch. -/
def c2VideoReq : CreateContentRequest := { contentType := some "video" }

/-- The witness image run. -/
def c2ImageRun : CreateContentResult × AutomationEnv :=
  createContentHandler (baseEnv c1Store) c2ImageReq

/-- The 201 body of the witness image run. -/
def c2ImageBody : CreateContentOk :=
  match c2ImageRun.1 with
  | .ok b => b
  | _ => fallbackOkBody

/-- The witness video run. -/
def c2VideoRun : CreateContentResult × AutomationEnv :=
  createContentHandler (baseEnv c1Store) c2VideoReq

/-- The 201 body of the witness video run. -/
def c2VideoBody : CreateContentOk :=
  match c2VideoRun.1 with
  | .ok b => b
  | _ => fallbackOkBody

/-- Witness for C2: the three branches evaluated on a concrete store. -/
theorem automation_content_type_fields_witness :
    (c1Body.content.contentType = "text" ∧ c1Body.content.filePath = none ∧
      c1Body.content ∈ c1Run.2.storage.contents.rows) ∧
    (∃ p, c2ImageBody.content.filePath = some p ∧
      c2ImageBody.content.thumbnailPath = some p ∧
      c2ImageBody.content ∈ c2ImageRun.2.storage.contents.rows) ∧
    (∃ sc, c2VideoBody.script = some sc ∧
      sc ∈ c2VideoRun.2.storage.scripts.rows ∧
      c2VideoBody.content ∈ c2VideoRun.2.storage.contents.rows ∧
      ∃ md, c2VideoBody.content.metadata = some md ∧
        md.lookupKey "scriptId" = some (.num (sc.id : Rat))) := by
  refine ⟨?_, ?_, ?_⟩
  · exact (automation_content_type_fields (baseEnv c1Store) c1Req c1Body c1Run.2
      (by rfl)).1 rfl
  · exact (automation_content_type_fields (baseEnv c1Store) c2ImageReq c2ImageBody
      c2ImageRun.2 (by rfl)).2.1 rfl
  · exact (automation_content_type_fields (baseEnv c1Store) c2VideoReq c2VideoBody
      c2VideoRun.2 (by rfl)).2.2 rfl

/-! ## Claim C3 -/

/-- Every 201 body holds the scheduling outcome of `scheduleStep` run
against an intermediate store whose platform accounts and scheduled posts
agree with the request-time store. -/
lemma dispatchByType_ok_sched (env : AutomationEnv) (req : CreateContentRequest)
    (topic : TrendingTopic) (b : CreateContentOk) (env2 : AutomationEnv)
    (h : dispatchByType env req topic = (.ok b, env2)) :
    ∃ s1 : MemStorage,
      s1.platformAccounts = env.storage.platformAccounts ∧
      s1.scheduledPosts = env.storage.scheduledPosts ∧
      b.scheduledPost = (scheduleStep s1 req b.content.id env.now).1 ∧
      env2.storage.scheduledPosts =
        (scheduleStep s1 req b.content.id env.now).2.scheduledPosts := by
  unfold dispatchByType createContentVideoBranch createContentImageBranch
    createContentTextBranch at h
  dsimp only at h
  split at h
  · split at h
    · simp at h
    · simp only [Prod.mk.injEq, CreateContentResult.ok.injEq] at h
      obtain ⟨hb, henv⟩ := h
      subst hb
      subst henv
      refine ⟨_, ?_, ?_, rfl, ?_⟩
      · rfl
      · rfl
      · rfl
  · split at h
    · split at h
      · simp at h
      · simp only [Prod.mk.injEq, CreateContentResult.ok.injEq] at h
        obtain ⟨hb, henv⟩ := h
        subst hb
        subst henv
        refine ⟨_, ?_, ?_, rfl, ?_⟩
        · rfl
        · rfl
        · rfl
    · simp only [Prod.mk.injEq, CreateContentResult.ok.injEq] at h
      obtain ⟨hb, henv⟩ := h
      subst hb
      subst henv
      refine ⟨_, ?_, ?_, rfl, ?_⟩
      · rfl
      · rfl
      · rfl

/-- An inactive account of platform 7. -/
def c3Account : PlatformAccount :=
  { id := 1, platformId := 7, name := "acct", username := "u",
    accessToken := none, refreshToken := none, tokenExpiry := none,
    followerCount := none, active := false, metadata := some [] }

/-- Store with one topic and one inactive account of platform 7. -/
def c3Store : MemStorage :=
  { MemStorage.empty with
      trendingTopics := { nextId := 2, rows := [c1Topic] }
      platformAccounts := { nextId := 2, rows := [c3Account] } }

/-- Request scheduling a text post to platform 7. -/
def c3Req : CreateContentRequest :=
  { platformId := some 7, contentType := some "text", scheduleImmediately := some true }

/-- The counterexample run. -/
def c3Run : CreateContentResult × AutomationEnv :=
  createContentHandler (baseEnv c3Store) c3Req

/-- Its 201 body. -/
def c3Body : CreateContentOk :=
  match c3Run.1 with
  | .ok b => b
  | _ => fallbackOkBody

/-- Claim C3 as stated is false: platform 7 has no active account, yet the
run schedules a post (non-null ScheduledPost in the body, and a
ScheduledPost record is stored), because the code never consults the active
flag of the resolved account. -/
theorem automation_scheduling_claim_counterexample :
    (∀ acc ∈ (baseEnv c3Store).storage.getPlatformAccountsByPlatform 7,
        acc.active = false) ∧
    c3Run.1 = .ok c3Body ∧
    c3Body.scheduledPost.isSome = true ∧
    c3Run.2.storage.scheduledPosts.rows.length = 1 := by
  exact ⟨by decide, by rfl, by rfl, by rfl⟩

/-- Claim C3, amended: the pipeline resolves the first PlatformAccount of
the platform regardless of its active flag; when the platform has no
account at all, the 201 body holds a null ScheduledPost and no ScheduledPost
record is created; and the scheduling step never fails the run (shown on the
text branch, whose other stages are infallible). -/
theorem automation_scheduling_conditional (env : AutomationEnv)
    (req : CreateContentRequest) (b : CreateContentOk) (env2 : AutomationEnv)
    (hs : req.scheduleImmediately = some true) (hp : natTruthy req.platformId = true)
    (h : createContentHandler env req = (.ok b, env2)) :
    (env.storage.getPlatformAccountsByPlatform (req.platformId.getD 0) = [] →
       b.scheduledPost = none ∧
       env2.storage.scheduledPosts = env.storage.scheduledPosts) ∧
    (∀ a rest,
        env.storage.getPlatformAccountsByPlatform (req.platformId.getD 0) = a :: rest →
       ∃ sp, b.scheduledPost = some sp ∧ sp.platformAccountId = a.id ∧
         sp.contentId = b.content.id ∧ sp.scheduledTime = env.now + 60 * 60 * 1000 ∧
         sp.status = "pending" ∧ sp ∈ env2.storage.scheduledPosts.rows) := by
  obtain ⟨topic, hd⟩ := handler_ok_dispatch env req b env2 h
  obtain ⟨s1, hpa, hsp, hbs, hes⟩ := dispatchByType_ok_sched env req topic b env2 hd
  have hacc : s1.getPlatformAccountsByPlatform (req.platformId.getD 0) =
      env.storage.getPlatformAccountsByPlatform (req.platformId.getD 0) := by
    unfold MemStorage.getPlatformAccountsByPlatform
    rw [hpa]
  constructor
  · intro hempty
    have hstep : scheduleStep s1 req b.content.id env.now = (none, s1) := by
      unfold scheduleStep
      rw [hacc, hempty]
      simp [hs, hp]
    rw [hbs, hstep]
    rw [hes, hstep]
    exact ⟨rfl, hsp⟩
  · intro a rest hcons
    have hstep : scheduleStep s1 req b.content.id env.now =
        (some ((s1.createScheduledPost
          { contentId := b.content.id
            platformAccountId := a.id
            scheduledTime := env.now + 60 * 60 * 1000
            status := some "pending" }).1),
         (s1.createScheduledPost
          { contentId := b.content.id
            platformAccountId := a.id
            scheduledTime := env.now + 60 * 60 * 1000
            status := some "pending" }).2) := by
      unfold scheduleStep
      rw [hacc, hcons]
      simp [hs, hp]
    refine ⟨(s1.createScheduledPost
          { contentId := b.content.id
            platformAccountId := a.id
            scheduledTime := env.now + 60 * 60 * 1000
            status := some "pending" }).1, ?_, rfl, rfl, rfl, rfl, ?_⟩
    · rw [hbs, hstep]
    · rw [hes, hstep]
      simp [MemStorage.createScheduledPost, Table.createRow]

/-- Request scheduling a text post to platform 9, which has no accounts in
c3Store. -/
def c3bReq : CreateContentRequest :=
  { platformId := some 9, contentType := some "text", scheduleImmediately := some true }

/-- The no-account witness run. -/
def c3bRun : CreateContentResult × AutomationEnv :=
  createContentHandler (baseEnv c3Store) c3bReq

/-- Its 201 body. -/
def c3bBody : CreateContentOk :=
  match c3bRun.1 with
  | .ok b => b
  | _ => fallbackOkBody

/-- Witness for the amended C3 theorem: with no account on the requested
platform the body holds a null ScheduledPost and the scheduled posts map is
unchanged; with an (inactive) account present a pending post one hour out is
created for it. -/
theorem automation_scheduling_conditional_witness :
    (c3bBody.scheduledPost = none ∧
      c3bRun.2.storage.scheduledPosts = (baseEnv c3Store).storage.scheduledPosts) ∧
    (∃ sp, c3Body.scheduledPost = some sp ∧ sp.platformAccountId = c3Account.id ∧
      sp.contentId = c3Body.content.id ∧
      sp.scheduledTime = (baseEnv c3Store).now + 60 * 60 * 1000 ∧
      sp.status = "pending" ∧ sp ∈ c3Run.2.storage.scheduledPosts.rows) := by
  constructor
  · exact (automation_scheduling_conditional (baseEnv c3Store) c3bReq c3bBody
      c3bRun.2 rfl rfl (by rfl)).1 rfl
  · exact (automation_scheduling_conditional (baseEnv c3Store) c3Req c3Body
      c3Run.2 rfl rfl (by rfl)).2 c3Account [] rfl

/-! ## Claim C10 -/

/-- Claim C10: a request without contentType runs exactly the same pipeline
as the same request with contentType "video". -/
theorem automation_default_content_type (env : AutomationEnv)
    (req : CreateContentRequest) (h : req.contentType = none) :
    createContentHandler env req =
      createContentHandler env { req with contentType := some "video" } := by
  cases req with
  | mk tid pid ct si =>
    simp only at h
    subst h
    rfl

/-- Witness for C10 at a concrete store and request. -/
theorem automation_default_content_type_witness :
    createContentHandler (baseEnv c1Store) {} =
      createContentHandler (baseEnv c1Store) { contentType := some "video" } :=
  automation_default_content_type (baseEnv c1Store) {} rfl

/-! ## Claim C7 -/

/-- Replacing the row whose id matched in a find makes the next find return
the replacement. -/
lemma find?_replace {E : Type} (getId : E → Nat) (id : Nat) (u : E) (hu : getId u = id) :
    ∀ (l : List E) (e : E),
      l.find? (fun x => getId x = id) = some e →
      (l.map (fun x => if getId x = id then u else x)).find? (fun x => getId x = id) = some u := by
  intro l
  induction l with
  | nil => intro e he; simp at he
  | cons a rest ih =>
    intro e he
    rw [List.find?_cons] at he
    by_cases ha : getId a = id
    · have hd : (decide (getId u = id)) = true := decide_eq_true hu
      simp only [List.map_cons, if_pos ha]
      rw [List.find?_cons]
      simp only [hd]
    · have hd : (decide (getId a = id)) = false := decide_eq_false ha
      simp only [hd] at he
      simp only [List.map_cons, if_neg ha]
      rw [List.find?_cons]
      simp only [hd]
      exact ih e he

/-- `Map.get` after `Map.set` on a key that was present. -/
lemma Table.getRow_setRow {E : Type} (t : Table E) (getId : E → Nat) (id : Nat)
    (e u : E) (hfind : t.getRow getId id = some e) (hu : getId u = id) :
    (t.setRow getId id u).getRow getId id = some u := by
  unfold Table.getRow Table.setRow at *
  exact find?_replace getId id u hu t.rows e hfind

/-- A found row has the looked-up id. -/
lemma Table.getRow_id {E : Type} (t : Table E) (getId : E → Nat) (id : Nat) (e : E)
    (hfind : t.getRow getId id = some e) : getId e = id := by
  unfold Table.getRow at hfind
  have := List.find?_some hfind
  exact of_decide_eq_true this

/-- The stored AiConfig of the counterexample, last updated at time 5. -/
def c7Config : AiConfig :=
  { id := 1, name := "cfg", modelType := "llm", modelName := "m", active := true,
    settings := some [], capabilities := some [], lastUpdated := 5,
    downloadStatus := some "available" }

/-- Store holding that config. -/
def c7Store : MemStorage :=
  { MemStorage.empty with aiConfigs := { nextId := 2, rows := [c7Config] } }

/-- Claim C7 as stated is false: updating the AiConfig with an empty patch at
clock 6 returns a record whose lastUpdated is 6, although the stored record
had lastUpdated 5 and the payload did not mention the field: updateAiConfig
always refreshes lastUpdated. -/
theorem update_shallow_merge_claim_counterexample :
    c7Store.getAiConfig 1 = some c7Config ∧
    c7Config.lastUpdated = 5 ∧
    ((c7Store.updateAiConfig 6 1 {}).1.map AiConfig.lastUpdated = some 6) := by
  exact ⟨by decide, by decide, by decide⟩

/-- Claim C7, amended: for every entity type other than AiConfig, an update
of an existing record returns exactly the shallow merge of the patch into
the record, leaves every field absent from the patch (and the id and
creation timestamp) unchanged, and a subsequent get returns that merged
record; for AiConfig the same holds except that lastUpdated is always reset
to the call-time clock. -/
theorem update_shallow_merge_spec :
    (∀ (s : MemStorage) (id : Nat) (p : ScriptPatch) (e : Script),
      s.getScript id = some e →
      (s.updateScript id p).1 = some (mergeScript e p) ∧
      (s.updateScript id p).2.getScript id = some (mergeScript e p) ∧
      (mergeScript e p).id = e.id ∧ (mergeScript e p).createdAt = e.createdAt ∧
      (p.title = none → (mergeScript e p).title = e.title) ∧
      (p.topic = none → (mergeScript e p).topic = e.topic) ∧
      (p.format = none → (mergeScript e p).format = e.format) ∧
      (p.content = none → (mergeScript e p).content = e.content) ∧
      (p.duration = none → (mergeScript e p).duration = e.duration) ∧
      (p.tone = none → (mergeScript e p).tone = e.tone) ∧
      (p.targetAudience = none → (mergeScript e p).targetAudience = e.targetAudience) ∧
      (p.audioPath = none → (mergeScript e p).audioPath = e.audioPath) ∧
      (p.status = none → (mergeScript e p).status = e.status)) ∧
    (∀ (s : MemStorage) (id : Nat) (p : PlatformPatch) (e : Platform),
      s.getPlatform id = some e →
      (s.updatePlatform id p).1 = some (mergePlatform e p) ∧
      (s.updatePlatform id p).2.getPlatform id = some (mergePlatform e p) ∧
      (mergePlatform e p).id = e.id ∧
      (p.name = none → (mergePlatform e p).name = e.name) ∧
      (p.icon = none → (mergePlatform e p).icon = e.icon) ∧
      (p.active = none → (mergePlatform e p).active = e.active)) ∧
    (∀ (s : MemStorage) (id : Nat) (p : PlatformAccountPatch) (e : PlatformAccount),
      s.getPlatformAccount id = some e →
      (s.updatePlatformAccount id p).1 = some (mergePlatformAccount e p) ∧
      (s.updatePlatformAccount id p).2.getPlatformAccount id =
        some (mergePlatformAccount e p) ∧
      (mergePlatformAccount e p).id = e.id ∧
      (p.platformId = none → (mergePlatformAccount e p).platformId = e.platformId) ∧
      (p.name = none → (mergePlatformAccount e p).name = e.name) ∧
      (p.username = none → (mergePlatformAccount e p).username = e.username) ∧
      (p.accessToken = none → (mergePlatformAccount e p).accessToken = e.accessToken) ∧
      (p.refreshToken = none → (mergePlatformAccount e p).refreshToken = e.refreshToken) ∧
      (p.tokenExpiry = none → (mergePlatformAccount e p).tokenExpiry = e.tokenExpiry) ∧
      (p.followerCount = none → (mergePlatformAccount e p).followerCount = e.followerCount) ∧
      (p.active = none → (mergePlatformAccount e p).active = e.active) ∧
      (p.metadata = none → (mergePlatformAccount e p).metadata = e.metadata)) ∧
    (∀ (s : MemStorage) (id : Nat) (p : ContentPatch) (e : Content),
      s.getContent id = some e →
      (s.updateContent id p).1 = some (mergeContent e p) ∧
      (s.updateContent id p).2.getContent id = some (mergeContent e p) ∧
      (mergeContent e p).id = e.id ∧ (mergeContent e p).createdAt = e.createdAt ∧
      (p.title = none → (mergeContent e p).title = e.title) ∧
      (p.description = none → (mergeContent e p).description = e.description) ∧
      (p.contentType = none → (mergeContent e p).contentType = e.contentType) ∧
      (p.status = none → (mergeContent e p).status = e.status) ∧
      (p.filePath = none → (mergeContent e p).filePath = e.filePath) ∧
      (p.thumbnailPath = none → (mergeContent e p).thumbnailPath = e.thumbnailPath) ∧
      (p.metadata = none → (mergeContent e p).metadata = e.metadata)) ∧
    (∀ (s : MemStorage) (id : Nat) (p : ScheduledPostPatch) (e : ScheduledPost),
      s.getScheduledPost id = some e →
      (s.updateScheduledPost id p).1 = some (mergeScheduledPost e p) ∧
      (s.updateScheduledPost id p).2.getScheduledPost id =
        some (mergeScheduledPost e p) ∧
      (mergeScheduledPost e p).id = e.id ∧
      (mergeScheduledPost e p).postId = e.postId ∧
      (mergeScheduledPost e p).error = e.error ∧
      (p.contentId = none → (mergeScheduledPost e p).contentId = e.contentId) ∧
      (p.platformAccountId = none →
        (mergeScheduledPost e p).platformAccountId = e.platformAccountId) ∧
      (p.scheduledTime = none → (mergeScheduledPost e p).scheduledTime = e.scheduledTime) ∧
      (p.status = none → (mergeScheduledPost e p).status = e.status)) ∧
    (∀ (s : MemStorage) (id : Nat) (p : TrendingTopicPatch) (e : TrendingTopic),
      s.getTrendingTopic id = some e →
      (s.updateTrendingTopic id p).1 = some (mergeTrendingTopic e p) ∧
      (s.updateTrendingTopic id p).2.getTrendingTopic id =
        some (mergeTrendingTopic e p) ∧
      (mergeTrendingTopic e p).id = e.id ∧
      (mergeTrendingTopic e p).discoveredAt = e.discoveredAt ∧
      (p.topic = none → (mergeTrendingTopic e p).topic = e.topic) ∧
      (p.category = none → (mergeTrendingTopic e p).category = e.category) ∧
      (p.description = none → (mergeTrendingTopic e p).description = e.description) ∧
      (p.trendScore = none → (mergeTrendingTopic e p).trendScore = e.trendScore)) ∧
    (∀ (s : MemStorage) (now : Millis) (id : Nat) (p : AiConfigPatch) (e : AiConfig),
      s.getAiConfig id = some e →
      (s.updateAiConfig now id p).1 = some (mergeAiConfig e p now) ∧
      (s.updateAiConfig now id p).2.getAiConfig id = some (mergeAiConfig e p now) ∧
      (mergeAiConfig e p now).id = e.id ∧
      (mergeAiConfig e p now).lastUpdated = now ∧
      (p.name = none → (mergeAiConfig e p now).name = e.name) ∧
      (p.modelType = none → (mergeAiConfig e p now).modelType = e.modelType) ∧
      (p.modelName = none → (mergeAiConfig e p now).modelName = e.modelName) ∧
      (p.active = none → (mergeAiConfig e p now).active = e.active) ∧
      (p.settings = none → (mergeAiConfig e p now).settings = e.settings) ∧
      (p.capabilities = none → (mergeAiConfig e p now).capabilities = e.capabilities) ∧
      (p.downloadStatus = none →
        (mergeAiConfig e p now).downloadStatus = e.downloadStatus)) := by
  refine ⟨?_, ?_, ?_, ?_, ?_, ?_, ?_⟩
  · intro s id p e hfind
    unfold MemStorage.getScript at hfind
    refine ⟨?_, ?_, rfl, rfl, ?_, ?_, ?_, ?_, ?_, ?_, ?_, ?_, ?_⟩
    · simp [MemStorage.updateScript, hfind]
    · have hid0 := Table.getRow_id _ _ _ _ hfind
      simp only [MemStorage.updateScript, MemStorage.getScript, hfind]
      exact Table.getRow_setRow _ _ _ e _ hfind hid0
    all_goals intro hp; simp [mergeScript, hp]
  · intro s id p e hfind
    unfold MemStorage.getPlatform at hfind
    refine ⟨?_, ?_, rfl, ?_, ?_, ?_⟩
    · simp [MemStorage.updatePlatform, hfind]
    · have hid0 := Table.getRow_id _ _ _ _ hfind
      simp only [MemStorage.updatePlatform, MemStorage.getPlatform, hfind]
      exact Table.getRow_setRow _ _ _ e _ hfind hid0
    all_goals intro hp; simp [mergePlatform, hp]
  · intro s id p e hfind
    unfold MemStorage.getPlatformAccount at hfind
    refine ⟨?_, ?_, rfl, ?_, ?_, ?_, ?_, ?_, ?_, ?_, ?_, ?_⟩
    · simp [MemStorage.updatePlatformAccount, hfind]
    · have hid0 := Table.getRow_id _ _ _ _ hfind
      simp only [MemStorage.updatePlatformAccount, MemStorage.getPlatformAccount, hfind]
      exact Table.getRow_setRow _ _ _ e _ hfind hid0
    all_goals intro hp; simp [mergePlatformAccount, hp]
  · intro s id p e hfind
    unfold MemStorage.getContent at hfind
    refine ⟨?_, ?_, rfl, rfl, ?_, ?_, ?_, ?_, ?_, ?_, ?_⟩
    · simp [MemStorage.updateContent, hfind]
    · have hid0 := Table.getRow_id _ _ _ _ hfind
      simp only [MemStorage.updateContent, MemStorage.getContent, hfind]
      exact Table.getRow_setRow _ _ _ e _ hfind hid0
    all_goals intro hp; simp [mergeContent, hp]
  · intro s id p e hfind
    unfold MemStorage.getScheduledPost at hfind
    refine ⟨?_, ?_, rfl, rfl, rfl, ?_, ?_, ?_, ?_⟩
    · simp [MemStorage.updateScheduledPost, hfind]
    · have hid0 := Table.getRow_id _ _ _ _ hfind
      simp only [MemStorage.updateScheduledPost, MemStorage.getScheduledPost, hfind]
      exact Table.getRow_setRow _ _ _ e _ hfind hid0
    all_goals intro hp; simp [mergeScheduledPost, hp]
  · intro s id p e hfind
    unfold MemStorage.getTrendingTopic at hfind
    refine ⟨?_, ?_, rfl, rfl, ?_, ?_, ?_, ?_⟩
    · simp [MemStorage.updateTrendingTopic, hfind]
    · have hid0 := Table.getRow_id _ _ _ _ hfind
      simp only [MemStorage.updateTrendingTopic, MemStorage.getTrendingTopic, hfind]
      exact Table.getRow_setRow _ _ _ e _ hfind hid0
    all_goals intro hp; simp [mergeTrendingTopic, hp]
  · intro s now id p e hfind
    unfold MemStorage.getAiConfig at hfind
    refine ⟨?_, ?_, rfl, rfl, ?_, ?_, ?_, ?_, ?_, ?_, ?_⟩
    · simp [MemStorage.updateAiConfig, hfind]
    · have hid0 := Table.getRow_id _ _ _ _ hfind
      simp only [MemStorage.updateAiConfig, MemStorage.getAiConfig, hfind]
      exact Table.getRow_setRow _ _ _ e _ hfind hid0
    all_goals intro hp; simp [mergeAiConfig, hp]

/-- Witness rows for the update specification. -/
def c7wScript : Script :=
  { id := 1, title := "t", topic := "x", format := "video", content := "c",
    duration := some 300, tone := some "casual", targetAudience := none,
    createdAt := 3, audioPath := none, status := "draft" }

/-- Witness platform row. -/
def c7wPlatform : Platform := { id := 1, name := "YouTube", icon := "yt", active := true }

/-- Witness platform account row. -/
def c7wAccount : PlatformAccount :=
  { id := 1, platformId := 1, name := "acc", username := "u", accessToken := none,
    refreshToken := none, tokenExpiry := none, followerCount := some 7,
    active := true, metadata := some [] }

/-- Witness content row. -/
def c7wContent : Content :=
  { id := 1, title := "c", description := some "d", contentType := "text",
    status := "draft", filePath := none, thumbnailPath := none,
    metadata := some [], createdAt := 4 }

/-- Witness scheduled post row. -/
def c7wPost : ScheduledPost :=
  { id := 1, contentId := 1, platformAccountId := 1, scheduledTime := 99,
    status := "pending", postId := none, error := none }

/-- Witness trending topic row. -/
def c7wTopic : TrendingTopic :=
  { id := 1, topic := "T", category := "Tech", description := none,
    trendScore := 55, discoveredAt := 2 }

/-- Store holding one row of each entity type. -/
def c7wStore : MemStorage :=
  { users := { nextId := 1, rows := [] }
    scripts := { nextId := 2, rows := [c7wScript] }
    aiConfigs := { nextId := 2, rows := [c7Config] }
    platforms := { nextId := 2, rows := [c7wPlatform] }
    platformAccounts := { nextId := 2, rows := [c7wAccount] }
    contents := { nextId := 2, rows := [c7wContent] }
    scheduledPosts := { nextId := 2, rows := [c7wPost] }
    trendingTopics := { nextId := 2, rows := [c7wTopic] } }

/-- Witness for the amended C7 theorem: updates with an empty patch return
the merge of each stored record, and the AiConfig read back after an update
carries the refreshed clock. -/
theorem update_shallow_merge_spec_witness :
    (c7wStore.updateScript 1 {}).1 = some (mergeScript c7wScript {}) ∧
    (c7wStore.updatePlatform 1 {}).1 = some (mergePlatform c7wPlatform {}) ∧
    (c7wStore.updatePlatformAccount 1 {}).1 = some (mergePlatformAccount c7wAccount {}) ∧
    (c7wStore.updateContent 1 {}).1 = some (mergeContent c7wContent {}) ∧
    (c7wStore.updateScheduledPost 1 {}).1 = some (mergeScheduledPost c7wPost {}) ∧
    (c7wStore.updateTrendingTopic 1 {}).1 = some (mergeTrendingTopic c7wTopic {}) ∧
    (c7wStore.updateAiConfig 6 1 {}).2.getAiConfig 1 = some (mergeAiConfig c7Config {} 6) := by
  have h := update_shallow_merge_spec
  exact ⟨(h.1 c7wStore 1 {} c7wScript (by decide)).1,
    (h.2.1 c7wStore 1 {} c7wPlatform (by decide)).1,
    (h.2.2.1 c7wStore 1 {} c7wAccount (by decide)).1,
    (h.2.2.2.1 c7wStore 1 {} c7wContent (by decide)).1,
    (h.2.2.2.2.1 c7wStore 1 {} c7wPost (by decide)).1,
    (h.2.2.2.2.2.1 c7wStore 1 {} c7wTopic (by decide)).1,
    (h.2.2.2.2.2.2 c7wStore 6 1 {} c7Config (by decide)).2.1⟩

/-! ## Claim C8 -/

/-- Claim C8: textToAudio and scriptToAudio reject with a distinct error
naming the voice exactly when the voice is neither downloaded nor available
for lazy download; a downloaded or available voice always yields an audio
result. -/
theorem tts_voice_availability (st : TTSState) (now : Millis)
    (text voiceId : String) (settings : TTSSettingsPatch) (format : String) :
    (voiceId ∉ st.downloadedVoices → voiceId ∉ availableVoiceIds →
      (textToAudio st now text voiceId settings).1 =
        .error ("Voice " ++ voiceId ++ " is not available and could not be downloaded") ∧
      (scriptToAudio st now text voiceId format).1 =
        .error ("Voice " ++ voiceId ++ " is not available and could not be downloaded")) ∧
    ((voiceId ∈ st.downloadedVoices ∨ voiceId ∈ availableVoiceIds) →
      (∃ r, (textToAudio st now text voiceId settings).1 = .ok r) ∧
      (∃ r, (scriptToAudio st now text voiceId format).1 = .ok r)) := by
  have hcore : ∀ (t : String) (p : TTSSettingsPatch),
      (voiceId ∉ st.downloadedVoices → voiceId ∉ availableVoiceIds →
        (textToAudio st now t voiceId p).1 =
          .error ("Voice " ++ voiceId ++ " is not available and could not be downloaded")) ∧
      ((voiceId ∈ st.downloadedVoices ∨ voiceId ∈ availableVoiceIds) →
        ∃ r, (textToAudio st now t voiceId p).1 = .ok r) := by
    intro t p
    constructor
    · intro h1 h2
      simp [textToAudio, downloadVoice, h1, h2]
    · intro hor
      by_cases h1 : voiceId ∈ st.downloadedVoices
      · exact ⟨_, by simp [textToAudio, h1]; rfl⟩
      · have h2 : voiceId ∈ availableVoiceIds := hor.resolve_left h1
        exact ⟨_, by simp [textToAudio, downloadVoice, h1, h2]; rfl⟩
  constructor
  · intro h1 h2
    exact ⟨(hcore text settings).1 h1 h2,
      (hcore (prepareScriptForTTS text) { format := some format }).1 h1 h2⟩
  · intro hor
    exact ⟨(hcore text settings).2 hor,
      (hcore (prepareScriptForTTS text) { format := some format }).2 hor⟩

/-- Witness for C8: the fresh TTS state rejects the unknown voice
"robot-voice" with the error naming it, and succeeds for the not yet
downloaded but available voice "casual-male". -/
theorem tts_voice_availability_witness :
    (textToAudio TTSState.initial 0 "hi" "robot-voice" {}).1 =
      .error ("Voice " ++ "robot-voice" ++ " is not available and could not be downloaded") ∧
    (∃ r, (textToAudio TTSState.initial 0 "hi" "casual-male" {}).1 = .ok r) := by
  constructor
  · exact ((tts_voice_availability TTSState.initial 0 "hi" "robot-voice" {} "mp3").1
      (by decide) (by decide)).1
  · exact ((tts_voice_availability TTSState.initial 0 "hi" "casual-male" {} "mp3").2
      (Or.inr (by decide))).1

/-! ## Claim C9 -/

/-- The raw JSON body of the failing POST /api/trending-topics request. -/
def c9Body : Metadata :=
  [("topic", .str "Test"), ("category", .str "Tech"), ("trendScore", .num 500)]

/-- Claim C9 fails on the code: a trendScore of 500 passes
insertTrendingTopicSchema (which carries no range bound), the POST route
answers 201, and the stored topic has trendScore 500, outside [1,100].  The
client form enforces a 1..100 bound on trendScore, so the server-side
omission reads as a missing validation rather than intent. -/
theorem trending_topic_out_of_range_accepted :
    (parseInsertTrendingTopic c9Body).isSome = true ∧
    (postTrendingTopicRoute MemStorage.empty 0 c9Body).1.1 = 201 ∧
    ((postTrendingTopicRoute MemStorage.empty 0 c9Body).1.2.map
        TrendingTopic.trendScore = some 500) ∧
    ¬(1 ≤ (500 : Int) ∧ (500 : Int) ≤ 100) := by
  refine ⟨by decide, by decide, by decide, by decide⟩

end ContentApp
